import Mathlib

/-
Verification of the reconciliation core of
utilities/agent-provisioning/enterprise_credentials.py.

The remote Redis Enterprise REST API is modelled as an oracle: every
call the python code makes is represented by a field of an oracle
structure holding the response the remote would give (attempt-indexed
for calls that sit inside retry loops).  Each AgentManager method is
embedded as a pure Lean function from its arguments and the oracle to
its boolean result together with the list of remote calls it issued
(the event trace).  Regular-expression compilation, an external
library, is abstracted as a parameter compile : String -> Option
(String -> Bool); a return of none models re.error.
-/

namespace Radar

/-- One entry of a database roles_permissions list.  Fields are
optional because the python code reads them with perm.get, which
yields None when the key is absent. -/
structure Perm where
  role_uid : Option Nat
  redis_acl_uid : Option Nat
  deriving DecidableEq, Repr

/-- A database object as returned by GET /v1/bdbs: uid, name and the
roles_permissions list (defaulted to [] by db.get in the source). -/
structure Database where
  uid : Nat
  name : String
  roles_permissions : List Perm
  deriving DecidableEq, Repr

/-- An ACL or role object: name and uid. -/
structure Resource where
  name : String
  uid : Nat
  deriving DecidableEq, Repr

/-- A user object: name, email and uid. -/
structure UserRes where
  name : String
  email : String
  uid : Nat
  deriving DecidableEq, Repr

/-- Error class of a failed create call.  conflict models a
requests.RequestException whose text contains 409 and Conflict; other
models every other RequestException. -/
inductive ApiErr where
  | conflict
  | other
  deriving DecidableEq, Repr

/-- Remote calls issued by the manager, recorded as an event trace.
q events are GET list calls, create and delete events are the
mutating POST and DELETE calls, putPermsE is the PUT of a database
roles_permissions list, sleepE records a time.sleep in seconds. -/
inductive Event where
  | qAclsE
  | qRolesE
  | qUsersE
  | qDbsE
  | createAclE
  | createRoleE
  | createUserE
  | deleteAclE (uid : Nat)
  | deleteRoleE (uid : Nat)
  | deleteUserE (uid : Nat)
  | putPermsE (dbUid : Nat) (perms : List Perm)
  | sleepE (secs : Nat)
  deriving DecidableEq, Repr

/-- True on the delete events. -/
def Event.isDelete : Event → Bool
  | .deleteAclE _ => true
  | .deleteRoleE _ => true
  | .deleteUserE _ => true
  | _ => false

/-- True on the create (POST) events. -/
def Event.isCreate : Event → Bool
  | .createAclE => true
  | .createRoleE => true
  | .createUserE => true
  | _ => false

/-- True on the permission PUT events. -/
def Event.isPut : Event → Bool
  | .putPermsE _ _ => true
  | _ => false

/-- Outcome of one HTTP PUT as seen by the API client: a status code,
or a raised requests.RequestException. -/
inductive HttpOutcome where
  | status (code : Nat)
  | exc
  deriving DecidableEq, Repr

/-- Embeds RedisEnterpriseAPI.update_database_permissions
(enterprise_credentials.py lines 137-149): true exactly on HTTP 200,
false on any other status, false when the request raises. -/
def RedisEnterpriseAPI.update_database_permissions : HttpOutcome → Bool
  | .status c => if c = 200 then true else false
  | .exc => false

/-- The membership test used by both reconciliation and cleanup:
perm.get role_uid == role_uid and perm.get redis_acl_uid == acl_uid. -/
def permMatches (role_uid acl_uid : Nat) (p : Perm) : Bool :=
  p.role_uid == some role_uid && p.redis_acl_uid == some acl_uid

/-- The permission dict appended by reconciliation. -/
def newPerm (role_uid acl_uid : Nat) : Perm :=
  { role_uid := some role_uid, redis_acl_uid := some acl_uid }

/-- One iteration of the per-database loop of
AgentManager.update_database_permissions (lines 712-744): skip and
count success when the exact pair is already present (the
skip_existing test has two identical branches, as in the source),
otherwise append the pair and PUT; the database keeps its old list
when the PUT fails.  Returns the new database state, whether the
database was counted a success, and the PUT calls issued. -/
def updOne (put : Nat → List Perm → Bool) (role_uid acl_uid : Nat)
    (skip_existing : Bool) (db : Database) : Database × Bool × List Event :=
  let current := db.roles_permissions
  if current.any (permMatches role_uid acl_uid) then
    if skip_existing then (db, true, []) else (db, true, [])
  else
    let updated := current ++ [newPerm role_uid acl_uid]
    if put db.uid updated then
      ({ db with roles_permissions := updated }, true, [.putPermsE db.uid updated])
    else
      (db, false, [.putPermsE db.uid updated])

/-- One iteration of the per-database loop of
AgentManager.cleanup_database_permissions (lines 655-678): drop every
entry matching both uids; PUT only when entries were dropped; a
failed PUT leaves the database unchanged and is not counted. -/
def clOne (put : Nat → List Perm → Bool) (role_uid acl_uid : Nat)
    (db : Database) : Database × Bool × List Event :=
  let current := db.roles_permissions
  let updated := current.filter (fun p => !(permMatches role_uid acl_uid p))
  if updated.length < current.length then
    if put db.uid updated then
      ({ db with roles_permissions := updated }, true, [.putPermsE db.uid updated])
    else
      (db, false, [.putPermsE db.uid updated])
  else
    (db, true, [])

/-- Result of one of the two database batch methods: the new remote
database list, the success and total counters, the boolean the method
returns, and the trace of remote calls. -/
structure BatchOut where
  dbs : List Database
  succ : Nat
  total : Nat
  ok : Bool
  evs : List Event
  deriving DecidableEq, Repr

/-- The shared for-db-in-databases loop: databases matching the filter
predicate are fed to the step, the others stay untouched on the
remote.  Mirrors filtering followed by the sequential per-database
loop of lines 698-744 and 641-678. -/
def runBatchFiltered (pred : Database → Bool)
    (step : Database → Database × Bool × List Event) :
    List Database → List Database × Nat × Nat × List Event
  | [] => ([], 0, 0, [])
  | db :: rest =>
    let t := runBatchFiltered pred step rest
    if pred db then
      let s := step db
      (s.1 :: t.1, (if s.2.1 then 1 else 0) + t.2.1, t.2.2.1 + 1, s.2.2 ++ t.2.2.2)
    else
      (db :: t.1, t.2.1, t.2.2.1, t.2.2.2)

/-- Embeds AgentManager.update_database_permissions (lines 687-751).
getFails models a RequestException from get_databases; dbs is the
remote database list that GET would return.  Returns false when the
GET raises, when no databases exist, or when the filter pattern does
not compile; otherwise processes every filtered database and returns
true regardless of the per-database counters. -/
def AgentManager.update_database_permissions
    (compile : String → Option (String → Bool))
    (put : Nat → List Perm → Bool) (role_uid acl_uid : Nat)
    (_agent_name : String) (database_filter : Option String)
    (skip_existing : Bool) (getFails : Bool) (dbs : List Database) : BatchOut :=
  if getFails then ⟨dbs, 0, 0, false, [.qDbsE]⟩
  else if dbs = [] then ⟨dbs, 0, 0, false, [.qDbsE]⟩
  else
    match database_filter with
    | some f =>
      match compile f with
      | none => ⟨dbs, 0, 0, false, [.qDbsE]⟩
      | some pr =>
        let r := runBatchFiltered (fun db => pr db.name)
          (updOne put role_uid acl_uid skip_existing) dbs
        ⟨r.1, r.2.1, r.2.2.1, true, .qDbsE :: r.2.2.2⟩
    | none =>
      let r := runBatchFiltered (fun _ => true)
        (updOne put role_uid acl_uid skip_existing) dbs
      ⟨r.1, r.2.1, r.2.2.1, true, .qDbsE :: r.2.2.2⟩

/-- Embeds AgentManager.cleanup_database_permissions (lines 630-685),
with the same oracle conventions as update_database_permissions. -/
def AgentManager.cleanup_database_permissions
    (compile : String → Option (String → Bool))
    (put : Nat → List Perm → Bool) (role_uid acl_uid : Nat)
    (_agent_name : String) (database_filter : Option String)
    (getFails : Bool) (dbs : List Database) : BatchOut :=
  if getFails then ⟨dbs, 0, 0, false, [.qDbsE]⟩
  else if dbs = [] then ⟨dbs, 0, 0, false, [.qDbsE]⟩
  else
    match database_filter with
    | some f =>
      match compile f with
      | none => ⟨dbs, 0, 0, false, [.qDbsE]⟩
      | some pr =>
        let r := runBatchFiltered (fun db => pr db.name)
          (clOne put role_uid acl_uid) dbs
        ⟨r.1, r.2.1, r.2.2.1, true, .qDbsE :: r.2.2.2⟩
    | none =>
      let r := runBatchFiltered (fun _ => true)
        (clOne put role_uid acl_uid) dbs
      ⟨r.1, r.2.1, r.2.2.1, true, .qDbsE :: r.2.2.2⟩

/-- Loop body of AgentManager.wait_for_component_deletion (lines
219-243), iterating over the remaining attempt indices.  lists gives
the remote list of component names at each attempt (or a
RequestException); after a failed or still-present check the loop
sleeps for delay seconds unless the attempt was the last one. -/
def waitGo (lists : Nat → Except Unit (List String)) (qEv : Event)
    (name : String) (maxR delay : Nat) : List Nat → Bool × List Event
  | [] => (false, [])
  | a :: rest =>
    match lists a with
    | .ok l =>
      if l.any (fun n => n == name) then
        if a < maxR - 1 then
          let t := waitGo lists qEv name maxR delay rest
          (t.1, qEv :: .sleepE delay :: t.2)
        else
          (false, [qEv])
      else
        (true, [qEv])
    | .error _ =>
      if a < maxR - 1 then
        let t := waitGo lists qEv name maxR delay rest
        (t.1, qEv :: .sleepE delay :: t.2)
      else
        (false, [qEv])

/-- Embeds AgentManager.wait_for_component_deletion (lines 219-243).
The source defaults are max_retries = 10 and delay = 2.0 seconds;
create_new_agent calls it without overrides. -/
def AgentManager.wait_for_component_deletion
    (lists : Nat → Except Unit (List String)) (qEv : Event)
    (name : String) (maxR delay : Nat) : Bool × List Event :=
  waitGo lists qEv name maxR delay (List.range maxR)

/-- Outcome of a create retry loop inside create_new_agent. -/
inductive RetryOutcome (α : Type) where
  | created (r : α)
  | adopted (r : α)
  | failed
  | raised
  deriving DecidableEq, Repr

/-- Loop body of the component creation retry in create_new_agent
(lines 332-361 for the ACL; the role and user loops at 371-399 and
411-439 are textually identical).  mk gives the remote response to
the POST at each attempt; on a conflict at the last attempt the
remote list q is queried and a resource with the expected name is
adopted, else the loop fails; a non-conflict error is re-raised. -/
def createRetryGo {α : Type} (getName : α → String)
    (mk : Nat → Except ApiErr α) (q : Except Unit (List α))
    (name : String) (maxR : Nat) (mkEv qEv : Event) :
    List Nat → RetryOutcome α × List Event
  | [] => (.failed, [])
  | a :: rest =>
    match mk a with
    | .ok r => (.created r, [mkEv])
    | .error .other => (.raised, [mkEv])
    | .error .conflict =>
      if a < maxR - 1 then
        let t := createRetryGo getName mk q name maxR mkEv qEv rest
        (t.1, mkEv :: .sleepE 3 :: t.2)
      else
        match q with
        | .ok rs =>
          match rs.find? (fun x => getName x == name) with
          | some r => (.adopted r, [mkEv, qEv])
          | none => (.failed, [mkEv, qEv])
        | .error _ => (.failed, [mkEv, qEv])

/-- The component creation retry of create_new_agent, run over
attempts 0 to maxR - 1 (the source uses max_retries = 5 and a 3.0
second sleep). -/
def AgentManager.create_with_retry {α : Type} (getName : α → String)
    (mk : Nat → Except ApiErr α) (q : Except Unit (List α))
    (name : String) (maxR : Nat) (mkEv qEv : Event) :
    RetryOutcome α × List Event :=
  createRetryGo getName mk q name maxR mkEv qEv (List.range maxR)

/-- The existing-components dict built by find_existing_agent: at most
one ACL, role and user entry. -/
structure Found where
  acl : Option Resource
  role : Option Resource
  user : Option UserRes
  deriving DecidableEq, Repr

/-- The user match heuristic of find_existing_agent (lines 206-211). -/
def userMatches (agent_name : String) (u : UserRes) : Bool :=
  u.name == agent_name ||
  u.email == agent_name ++ "@example.com" ||
  u.email == agent_name ||
  u.name == agent_name ++ "@example.com" ||
  u.name == agent_name ++ "@re.demo" ||
  u.email == agent_name ++ "@re.demo"

/-- Embeds AgentManager.find_existing_agent (lines 173-217): three
independent lookups, each RequestException treated as not found, and
None returned when nothing at all was found. -/
def AgentManager.find_existing_agent (fe_acls fe_roles : Except Unit (List Resource))
    (fe_users : Except Unit (List UserRes)) (agent_name : String) : Option Found :=
  let acl0 : Option Resource :=
    match fe_acls with
    | .ok l => l.find? (fun a => a.name == agent_name ++ "-acl")
    | .error _ => none
  let role0 : Option Resource :=
    match fe_roles with
    | .ok l => l.find? (fun r => r.name == agent_name ++ "-role")
    | .error _ => none
  let user0 : Option UserRes :=
    match fe_users with
    | .ok l => l.find? (userMatches agent_name)
    | .error _ => none
  if acl0.isNone && role0.isNone && user0.isNone then none
  else some ⟨acl0, role0, user0⟩

/-- The missing_components list computed by create_new_agent (lines
255-259) and repair_missing_components (lines 522-526). -/
def missingOf (f : Found) : List String :=
  (if f.acl.isNone then ["acl"] else []) ++
  (if f.role.isNone then ["role"] else []) ++
  (if f.user.isNone then ["user"] else [])

/-- Result of create_new_agent or repair_missing_components: the
returned boolean, or crash for an exception the method does not catch
(its handler only catches requests.RequestException). -/
inductive COut where
  | ret (b : Bool)
  | crash
  deriving DecidableEq, Repr

/-- Oracle for one run of create_new_agent: the remote responses to
every call the method can make, per call site, attempt-indexed inside
loops.  fe fields feed find_existing_agent, cl fields the permission
cleanup, del and wait fields the force teardown, mk and q fields the
creation retries, up fields the final permission reconciliation. -/
structure CreateOracle where
  fe_acls : Except Unit (List Resource)
  fe_roles : Except Unit (List Resource)
  fe_users : Except Unit (List UserRes)
  cl_getFails : Bool
  cl_dbs : List Database
  cl_put : Nat → List Perm → Bool
  del_user : Except Unit Bool
  del_role : Except Unit Bool
  del_acl : Except Unit Bool
  wait_user : Nat → Except Unit (List String)
  wait_role : Nat → Except Unit (List String)
  wait_acl : Nat → Except Unit (List String)
  mk_acl : Nat → Except ApiErr Resource
  q_acls : Except Unit (List Resource)
  mk_role : Nat → Except ApiErr Resource
  q_roles : Except Unit (List Resource)
  mk_user : Nat → Except ApiErr UserRes
  q_users : Except Unit (List UserRes)
  up_getFails : Bool
  up_dbs : List Database
  up_put : Nat → List Perm → Bool

/-- Final step of create_new_agent (lines 444-460): reconcile database
permissions unless skipped, then return True; the boolean returned by
update_database_permissions is discarded. -/
def createUpdatePhase (compile : String → Option (String → Bool))
    (o : CreateOracle) (agent_name : String) (database_filter : Option String)
    (skip_existing skip_all_databases : Bool)
    (aclUid roleUid : Nat) (evs : List Event) : COut × List Event :=
  if skip_all_databases then (.ret true, evs)
  else
    let r := AgentManager.update_database_permissions compile o.up_put roleUid aclUid
      agent_name database_filter skip_existing o.up_getFails o.up_dbs
    (.ret true, evs ++ r.evs)

/-- The create-or-get-user step of create_new_agent (lines 401-442).
maxR is some 5 only when the ACL creation branch ran and assigned
max_retries; when the user loop runs without it the python raises
NameError, modelled as crash. -/
def createUserPhase (compile : String → Option (String → Bool))
    (o : CreateOracle) (agent_name : String) (database_filter : Option String)
    (skip_existing skip_all_databases skip_user_creation : Bool)
    (ex0 : Option Found) (maxR : Option Nat) (acl role : Resource)
    (evs : List Event) : COut × List Event :=
  if skip_user_creation then
    createUpdatePhase compile o agent_name database_filter skip_existing
      skip_all_databases acl.uid role.uid evs
  else
    match (match ex0 with | some ex => ex.user | none => none) with
    | some _ =>
      createUpdatePhase compile o agent_name database_filter skip_existing
        skip_all_databases acl.uid role.uid evs
    | none =>
      match maxR with
      | none => (.crash, evs)
      | some mr =>
        let t := AgentManager.create_with_retry UserRes.name o.mk_user o.q_users
          agent_name mr .createUserE .qUsersE
        match t.1 with
        | .created _ =>
          createUpdatePhase compile o agent_name database_filter skip_existing
            skip_all_databases acl.uid role.uid (evs ++ t.2)
        | .adopted _ =>
          createUpdatePhase compile o agent_name database_filter skip_existing
            skip_all_databases acl.uid role.uid (evs ++ t.2)
        | .failed => (.ret false, evs ++ t.2)
        | .raised => (.ret false, evs ++ t.2)

/-- The create-or-get-role step of create_new_agent (lines 363-399);
the loop reads the max_retries variable assigned by the ACL creation
branch, hence the same NameError modelling as the user step. -/
def createRolePhase (compile : String → Option (String → Bool))
    (o : CreateOracle) (agent_name : String) (database_filter : Option String)
    (skip_existing skip_all_databases skip_user_creation : Bool)
    (ex0 : Option Found) (maxR : Option Nat) (acl : Resource)
    (evs : List Event) : COut × List Event :=
  match (match ex0 with | some ex => ex.role | none => none) with
  | some r =>
    createUserPhase compile o agent_name database_filter skip_existing
      skip_all_databases skip_user_creation ex0 maxR acl r evs
  | none =>
    match maxR with
    | none => (.crash, evs)
    | some mr =>
      let t := AgentManager.create_with_retry Resource.name o.mk_role o.q_roles
        (agent_name ++ "-role") mr .createRoleE .qRolesE
      match t.1 with
      | .created r =>
        createUserPhase compile o agent_name database_filter skip_existing
          skip_all_databases skip_user_creation ex0 maxR acl r (evs ++ t.2)
      | .adopted r =>
        createUserPhase compile o agent_name database_filter skip_existing
          skip_all_databases skip_user_creation ex0 maxR acl r (evs ++ t.2)
      | .failed => (.ret false, evs ++ t.2)
      | .raised => (.ret false, evs ++ t.2)

/-- The create-or-get-ACL step of create_new_agent (lines 322-361);
only its creation branch assigns max_retries = 5. -/
def createAclPhase (compile : String → Option (String → Bool))
    (o : CreateOracle) (agent_name : String) (database_filter : Option String)
    (skip_existing skip_all_databases skip_user_creation : Bool)
    (ex0 : Option Found) (evs : List Event) : COut × List Event :=
  match (match ex0 with | some ex => ex.acl | none => none) with
  | some a =>
    createRolePhase compile o agent_name database_filter skip_existing
      skip_all_databases skip_user_creation ex0 none a evs
  | none =>
    let t := AgentManager.create_with_retry Resource.name o.mk_acl o.q_acls
      (agent_name ++ "-acl") 5 .createAclE .qAclsE
    match t.1 with
    | .created a =>
      createRolePhase compile o agent_name database_filter skip_existing
        skip_all_databases skip_user_creation ex0 (some 5) a (evs ++ t.2)
    | .adopted a =>
      createRolePhase compile o agent_name database_filter skip_existing
        skip_all_databases skip_user_creation ex0 (some 5) a (evs ++ t.2)
    | .failed => (.ret false, evs ++ t.2)
    | .raised => (.ret false, evs ++ t.2)

/-- ACL leg of the force teardown loop of create_new_agent (lines
293-313): DELETE, then poll for propagation with the source defaults
max_retries = 10 and delay = 2; a RequestException from the DELETE
makes create_new_agent return False. -/
def forceDeleteAcl (o : CreateOracle) (ex : Found) (evs : List Event) :
    Bool × List Event :=
  match ex.acl with
  | none => (true, evs)
  | some a =>
    match o.del_acl with
    | .error _ => (false, evs ++ [.deleteAclE a.uid])
    | .ok _ =>
      let w := AgentManager.wait_for_component_deletion o.wait_acl .qAclsE a.name 10 2
      (true, evs ++ .deleteAclE a.uid :: w.2)

/-- Role leg of the force teardown loop, before the ACL leg. -/
def forceDeleteRole (o : CreateOracle) (ex : Found) (evs : List Event) :
    Bool × List Event :=
  match ex.role with
  | none => forceDeleteAcl o ex evs
  | some r =>
    match o.del_role with
    | .error _ => (false, evs ++ [.deleteRoleE r.uid])
    | .ok _ =>
      let w := AgentManager.wait_for_component_deletion o.wait_role .qRolesE r.name 10 2
      forceDeleteAcl o ex (evs ++ .deleteRoleE r.uid :: w.2)

/-- User leg of the force teardown loop: deletion order is user, then
role, then ACL. -/
def forceDeleteUser (o : CreateOracle) (ex : Found) (evs : List Event) :
    Bool × List Event :=
  match ex.user with
  | none => forceDeleteRole o ex evs
  | some u =>
    match o.del_user with
    | .error _ => (false, evs ++ [.deleteUserE u.uid])
    | .ok _ =>
      let w := AgentManager.wait_for_component_deletion o.wait_user .qUsersE u.name 10 2
      forceDeleteRole o ex (evs ++ .deleteUserE u.uid :: w.2)

/-- Embeds AgentManager.create_new_agent (lines 245-464).  The force
teardown (permission cleanup for the existing role and ACL pair, then
user, role, ACL deletion with propagation polling) runs only in the
branch where no component is missing; when some component is missing
and force is set, the source keeps the existing components and only
creates the missing ones. -/
def AgentManager.create_new_agent (compile : String → Option (String → Bool))
    (o : CreateOracle) (agent_name : String) (database_filter : Option String)
    (skip_existing force skip_all_databases skip_user_creation : Bool) :
    COut × List Event :=
  let findEvs : List Event := [.qAclsE, .qRolesE, .qUsersE]
  match AgentManager.find_existing_agent o.fe_acls o.fe_roles o.fe_users agent_name with
  | none =>
    createAclPhase compile o agent_name database_filter skip_existing
      skip_all_databases skip_user_creation none findEvs
  | some ex =>
    if missingOf ex = [] then
      if force then
        let clEvs : List Event :=
          match ex.role, ex.acl with
          | some r, some a =>
            (AgentManager.cleanup_database_permissions compile o.cl_put r.uid a.uid
              agent_name database_filter o.cl_getFails o.cl_dbs).evs
          | _, _ => []
        let d := forceDeleteUser o ex (findEvs ++ clEvs)
        if d.1 then
          createAclPhase compile o agent_name database_filter skip_existing
            skip_all_databases skip_user_creation none d.2
        else (.ret false, d.2)
      else (.ret false, findEvs)
    else
      if force then
        createAclPhase compile o agent_name database_filter skip_existing
          skip_all_databases skip_user_creation (some ex) findEvs
      else (.ret false, findEvs)

/-- Oracle for one run of update_existing_agent. -/
structure UpdateOracle where
  gacls : Except Unit (List Resource)
  groles : Except Unit (List Resource)
  up_getFails : Bool
  up_dbs : List Database
  up_put : Nat → List Perm → Bool

/-- Embeds AgentManager.update_existing_agent (lines 466-507): looks
up the ACL and role by their fixed names, fails when either is
missing or a GET raises, otherwise reconciles database permissions
and returns True. -/
def AgentManager.update_existing_agent (compile : String → Option (String → Bool))
    (o : UpdateOracle) (agent_name : String) (database_filter : Option String)
    (skip_existing : Bool) : Bool × List Event :=
  match o.gacls with
  | .error _ => (false, [.qAclsE])
  | .ok acls =>
    match o.groles with
    | .error _ => (false, [.qAclsE, .qRolesE])
    | .ok roles =>
      match acls.find? (fun a => a.name == agent_name ++ "-acl") with
      | none => (false, [.qAclsE, .qRolesE])
      | some acl =>
        match roles.find? (fun r => r.name == agent_name ++ "-role") with
        | none => (false, [.qAclsE, .qRolesE])
        | some role =>
          let r := AgentManager.update_database_permissions compile o.up_put
            role.uid acl.uid agent_name database_filter skip_existing
            o.up_getFails o.up_dbs
          (true, [.qAclsE, .qRolesE] ++ r.evs)

/-- Oracle for one run of repair_missing_components. -/
structure RepairOracle where
  fe_acls : Except Unit (List Resource)
  fe_roles : Except Unit (List Resource)
  fe_users : Except Unit (List UserRes)
  mk_acl : Nat → Except ApiErr Resource
  mk_role : Nat → Except ApiErr Resource
  mk_user : Nat → Except ApiErr UserRes
  up_getFails : Bool
  up_dbs : List Database
  up_put : Nat → List Perm → Bool

/-- Outcome of a repair creation retry loop: unlike the create loops,
exhaustion of the conflict retries just skips the component. -/
inductive RepairTry (α : Type) where
  | made (r : α)
  | skipped
  | raised
  deriving DecidableEq, Repr

/-- Loop body of the repair creation retries (lines 546-561, 570-585,
595-610): on a conflict at the last attempt the component is skipped;
there is no re-query and no uid adoption. -/
def repairRetryGo {α : Type} (mk : Nat → Except ApiErr α) (maxR : Nat)
    (mkEv : Event) : List Nat → RepairTry α × List Event
  | [] => (.skipped, [])
  | a :: rest =>
    match mk a with
    | .ok r => (.made r, [mkEv])
    | .error .other => (.raised, [mkEv])
    | .error .conflict =>
      if a < maxR - 1 then
        let t := repairRetryGo mk maxR mkEv rest
        (t.1, mkEv :: .sleepE 3 :: t.2)
      else (.skipped, [mkEv])

/-- The repair creation retry run over attempts 0 to maxR - 1 (the
source again uses max_retries = 5 and 3.0 second sleeps). -/
def AgentManager.repair_retry {α : Type} (mk : Nat → Except ApiErr α)
    (maxR : Nat) (mkEv : Event) : RepairTry α × List Event :=
  repairRetryGo mk maxR mkEv (List.range maxR)

/-- Final step of repair_missing_components (lines 617-624): reconcile
database permissions only when both ACL and role are resolved and
database updates are not skipped; always return True. -/
def repairFinish (compile : String → Option (String → Bool)) (o : RepairOracle)
    (agent_name : String) (database_filter : Option String)
    (skip_all_databases : Bool) (acl0 role0 : Option Resource)
    (evs : List Event) : COut × List Event :=
  match acl0, role0 with
  | some a, some r =>
    if skip_all_databases then (.ret true, evs)
    else
      let u := AgentManager.update_database_permissions compile o.up_put r.uid a.uid
        agent_name database_filter false o.up_getFails o.up_dbs
      (.ret true, evs ++ u.evs)
  | _, _ => (.ret true, evs)

/-- User step of repair (lines 589-615).  When the user is missing and
user creation is not skipped, the call passes [role uid] to
create_user; with the role unresolved the python indexes None and
raises an uncaught TypeError, modelled as crash. -/
def repairUserPhase (compile : String → Option (String → Bool)) (o : RepairOracle)
    (agent_name : String) (database_filter : Option String)
    (skip_all_databases skip_user_creation : Bool) (ex : Found)
    (acl0 role0 : Option Resource) (evs : List Event) : COut × List Event :=
  if ex.user.isNone && !skip_user_creation then
    match role0 with
    | none => (.crash, evs)
    | some _ =>
      let t := AgentManager.repair_retry o.mk_user 5 .createUserE
      match t.1 with
      | .made _ =>
        repairFinish compile o agent_name database_filter skip_all_databases
          acl0 role0 (evs ++ t.2)
      | .skipped =>
        repairFinish compile o agent_name database_filter skip_all_databases
          acl0 role0 (evs ++ t.2)
      | .raised => (.ret false, evs ++ t.2)
  else
    repairFinish compile o agent_name database_filter skip_all_databases
      acl0 role0 evs

/-- Role step of repair (lines 565-587). -/
def repairRolePhase (compile : String → Option (String → Bool)) (o : RepairOracle)
    (agent_name : String) (database_filter : Option String)
    (skip_all_databases skip_user_creation : Bool) (ex : Found)
    (acl0 : Option Resource) (evs : List Event) : COut × List Event :=
  match ex.role with
  | some r =>
    repairUserPhase compile o agent_name database_filter skip_all_databases
      skip_user_creation ex acl0 (some r) evs
  | none =>
    let t := AgentManager.repair_retry o.mk_role 5 .createRoleE
    match t.1 with
    | .made r =>
      repairUserPhase compile o agent_name database_filter skip_all_databases
        skip_user_creation ex acl0 (some r) (evs ++ t.2)
    | .skipped =>
      repairUserPhase compile o agent_name database_filter skip_all_databases
        skip_user_creation ex acl0 none (evs ++ t.2)
    | .raised => (.ret false, evs ++ t.2)

/-- ACL step of repair (lines 539-563). -/
def repairAclPhase (compile : String → Option (String → Bool)) (o : RepairOracle)
    (agent_name : String) (database_filter : Option String)
    (skip_all_databases skip_user_creation : Bool) (ex : Found)
    (evs : List Event) : COut × List Event :=
  match ex.acl with
  | some a =>
    repairRolePhase compile o agent_name database_filter skip_all_databases
      skip_user_creation ex (some a) evs
  | none =>
    let t := AgentManager.repair_retry o.mk_acl 5 .createAclE
    match t.1 with
    | .made a =>
      repairRolePhase compile o agent_name database_filter skip_all_databases
        skip_user_creation ex (some a) (evs ++ t.2)
    | .skipped =>
      repairRolePhase compile o agent_name database_filter skip_all_databases
        skip_user_creation ex none (evs ++ t.2)
    | .raised => (.ret false, evs ++ t.2)

/-- Embeds AgentManager.repair_missing_components (lines 509-628):
fails when nothing was found, succeeds at once when nothing is
missing, otherwise creates the missing components with the
skip-on-exhaustion retry and finishes with the conditional permission
reconciliation. -/
def AgentManager.repair_missing_components (compile : String → Option (String → Bool))
    (o : RepairOracle) (agent_name : String) (database_filter : Option String)
    (skip_all_databases skip_user_creation : Bool) : COut × List Event :=
  let findEvs : List Event := [.qAclsE, .qRolesE, .qUsersE]
  match AgentManager.find_existing_agent o.fe_acls o.fe_roles o.fe_users agent_name with
  | none => (.ret false, findEvs)
  | some ex =>
    if missingOf ex = [] then (.ret true, findEvs)
    else
      repairAclPhase compile o agent_name database_filter skip_all_databases
        skip_user_creation ex findEvs

/-- A put oracle answering success on every PUT. -/
def putTrue : Nat → List Perm → Bool := fun _ _ => true

/-- A put oracle answering failure on every PUT. -/
def putFalse : Nat → List Perm → Bool := fun _ _ => false

/-- A regex compiler accepting every pattern and matching every name. -/
def compileAny : String → Option (String → Bool) := fun _ => some (fun _ => true)

/-- A regex compiler on which every pattern fails to compile,
modelling syntactically invalid patterns. -/
def compileNone : String → Option (String → Bool) := fun _ => none

/-- A database with an empty permission list. -/
def sampleDb1 : Database := ⟨1, "db", []⟩

/-- A database carrying the (7, 3) binding. -/
def sampleDb73 : Database := ⟨2, "prod-a", [⟨some 7, some 3⟩]⟩

/-- A database carrying the (7, 4) binding. -/
def sampleDb74 : Database := ⟨3, "prod-b", [⟨some 7, some 4⟩]⟩

/-- Concrete create oracle: ACL absent, role x-role (uid 7) and user x
(uid 9) present, ACL creation succeeding at once. -/
def partialForceOracle : CreateOracle :=
  { fe_acls := .ok []
    fe_roles := .ok [⟨"x-role", 7⟩]
    fe_users := .ok [⟨"x", "x@example.com", 9⟩]
    cl_getFails := false
    cl_dbs := []
    cl_put := putTrue
    del_user := .ok true
    del_role := .ok true
    del_acl := .ok true
    wait_user := fun _ => .ok []
    wait_role := fun _ => .ok []
    wait_acl := fun _ => .ok []
    mk_acl := fun _ => .ok ⟨"x-acl", 3⟩
    q_acls := .ok []
    mk_role := fun _ => .error .other
    q_roles := .ok []
    mk_user := fun _ => .error .other
    q_users := .ok []
    up_getFails := false
    up_dbs := [sampleDb1]
    up_put := putTrue }

/-- Concrete create oracle: all three components present (uids 4, 7
and 9), recreation succeeding at once. -/
def completeForceOracle : CreateOracle :=
  { partialForceOracle with
    fe_acls := .ok [⟨"x-acl", 4⟩]
    mk_role := fun _ => .ok ⟨"x-role", 17⟩
    mk_user := fun _ => .ok ⟨"x", "x@example.com", 19⟩
    cl_dbs := [⟨5, "d5", [⟨some 7, some 4⟩]⟩] }

/-- Concrete repair oracle: ACL absent, role x-role (uid 7) and user x
(uid 9) present, every ACL creation attempt answering 409 Conflict. -/
def repairConflictOracle : RepairOracle :=
  { fe_acls := .ok []
    fe_roles := .ok [⟨"x-role", 7⟩]
    fe_users := .ok [⟨"x", "x@example.com", 9⟩]
    mk_acl := fun _ => .error .conflict
    mk_role := fun _ => .error .other
    mk_user := fun _ => .error .other
    up_getFails := false
    up_dbs := [sampleDb1]
    up_put := putTrue }

/-- Concrete repair oracle: like repairConflictOracle but with the ACL
creation succeeding at once. -/
def repairHappyOracle : RepairOracle :=
  { repairConflictOracle with mk_acl := fun _ => .ok ⟨"x-acl", 3⟩ }

/-- Concrete create oracle: nothing found, every creation succeeding
at once, and an empty remote database list so that the final
reconciliation reports failure. -/
def absentCreateOracle : CreateOracle :=
  { partialForceOracle with
    fe_roles := .ok []
    fe_users := .ok []
    mk_role := fun _ => .ok ⟨"x-role", 17⟩
    mk_user := fun _ => .ok ⟨"x", "x@example.com", 19⟩
    up_dbs := [] }

/-- Concrete repair oracle: only the user missing, user creation
succeeding at once, empty remote database list. -/
def repairUserMissingOracle : RepairOracle :=
  { repairConflictOracle with
    fe_acls := .ok [⟨"x-acl", 4⟩]
    fe_users := .ok []
    mk_user := fun _ => .ok ⟨"x", "x@example.com", 19⟩
    up_dbs := [] }

/-- Concrete update oracle: remote has no ACL and no role at all. -/
def updMissingOracle : UpdateOracle :=
  { gacls := .ok []
    groles := .ok []
    up_getFails := false
    up_dbs := [sampleDb1]
    up_put := putTrue }

/-- Concrete update oracle: ACL and role present with uids 4 and 7. -/
def updPresentOracle : UpdateOracle :=
  { gacls := .ok [⟨"x-acl", 4⟩]
    groles := .ok [⟨"x-role", 7⟩]
    up_getFails := false
    up_dbs := [sampleDb1]
    up_put := putTrue }

/-- Concrete create oracle: nothing found, every ACL creation attempt
answering 409 Conflict, with the ACL then discoverable by the final
re-query under uid 42. -/
def conflictCreateOracle : CreateOracle :=
  { absentCreateOracle with
    mk_acl := fun _ => .error .conflict
    q_acls := .ok [⟨"x-acl", 42⟩]
    up_dbs := [sampleDb1] }

/-- Concrete repair oracle on which nothing at all is found. -/
def repairAbsentOracle : RepairOracle :=
  { repairConflictOracle with
    fe_roles := .ok []
    fe_users := .ok [] }

theorem runBatchFiltered_fst (pred : Database → Bool)
    (step : Database → Database × Bool × List Event) (dbs : List Database) :
    (runBatchFiltered pred step dbs).1 =
      dbs.map (fun db => if pred db then (step db).1 else db) := by
  induction dbs with
  | nil => rfl
  | cons db rest ih =>
    cases hp : pred db <;> simp [runBatchFiltered, hp, ih]

theorem runBatchFiltered_length (pred : Database → Bool)
    (step : Database → Database × Bool × List Event) (dbs : List Database) :
    (runBatchFiltered pred step dbs).1.length = dbs.length := by
  rw [runBatchFiltered_fst]
  simp

theorem runBatchFiltered_total (pred : Database → Bool)
    (step : Database → Database × Bool × List Event) (dbs : List Database) :
    (runBatchFiltered pred step dbs).2.2.1 = (dbs.filter pred).length := by
  induction dbs with
  | nil => rfl
  | cons db rest ih =>
    cases hp : pred db <;> simp [runBatchFiltered, hp, ih, List.filter_cons]

theorem runBatchFiltered_succ (pred : Database → Bool)
    (step : Database → Database × Bool × List Event) (dbs : List Database) :
    (runBatchFiltered pred step dbs).2.1 =
      (dbs.filter pred).countP (fun db => (step db).2.1) := by
  induction dbs with
  | nil => rfl
  | cons db rest ih =>
    cases hp : pred db <;>
      simp [runBatchFiltered, hp, ih, List.filter_cons, List.countP_cons, Nat.add_comm]

theorem runBatchFiltered_evs_all (pb : Event → Bool) (pred : Database → Bool)
    (step : Database → Database × Bool × List Event)
    (h : ∀ db, (step db).2.2.all pb = true) (dbs : List Database) :
    (runBatchFiltered pred step dbs).2.2.2.all pb = true := by
  induction dbs with
  | nil => rfl
  | cons db rest ih =>
    cases hp : pred db <;> simp_all [runBatchFiltered, hp, List.all_append, h db]

theorem updOne_skip_indep (put : Nat → List Perm → Bool) (role_uid acl_uid : Nat)
    (b b' : Bool) (db : Database) :
    updOne put role_uid acl_uid b db = updOne put role_uid acl_uid b' db := by
  simp [updOne]

theorem updOne_exists_skip (put : Nat → List Perm → Bool) (role_uid acl_uid : Nat)
    (sk : Bool) (db : Database)
    (h : db.roles_permissions.any (permMatches role_uid acl_uid) = true) :
    updOne put role_uid acl_uid sk db = (db, true, []) := by
  simp [updOne, h]

theorem updOne_roles_permissions_invariant (put : Nat → List Perm → Bool)
    (role_uid acl_uid : Nat) (sk : Bool) (db : Database) :
    (updOne put role_uid acl_uid sk db).1.uid = db.uid ∧
    (updOne put role_uid acl_uid sk db).1.name = db.name := by
  simp only [updOne]
  split
  · simp
  · split <;> simp

theorem permMatches_newPerm (role_uid acl_uid : Nat) :
    permMatches role_uid acl_uid (newPerm role_uid acl_uid) = true := by
  simp [permMatches, newPerm]

theorem updOne_fst_idem (put : Nat → List Perm → Bool) (role_uid acl_uid : Nat)
    (sk : Bool) (db : Database) :
    (updOne put role_uid acl_uid sk (updOne put role_uid acl_uid sk db).1).1 =
      (updOne put role_uid acl_uid sk db).1 := by
  by_cases h : db.roles_permissions.any (permMatches role_uid acl_uid) = true
  · rw [updOne_exists_skip put role_uid acl_uid sk db h,
      updOne_exists_skip put role_uid acl_uid sk db h]
  · simp only [updOne, h]
    cases hput : put db.uid (db.roles_permissions ++ [newPerm role_uid acl_uid]) with
    | true =>
      simp only [Bool.false_eq_true, if_false, hput, if_true]
      have hany : (db.roles_permissions ++ [newPerm role_uid acl_uid]).any
          (permMatches role_uid acl_uid) = true := by
        simp [List.any_append, permMatches_newPerm]
      simp [updOne, hany]
    | false =>
      simp only [Bool.false_eq_true, if_false, hput]
      simp only [updOne, h, Bool.false_eq_true, if_false, hput]

theorem count_newPerm_zero (role_uid acl_uid : Nat) (l : List Perm)
    (h : l.any (permMatches role_uid acl_uid) = false) :
    l.count (newPerm role_uid acl_uid) = 0 := by
  rw [List.count_eq_zero]
  intro hmem
  have hany : l.any (permMatches role_uid acl_uid) = true :=
    List.any_eq_true.mpr ⟨_, hmem, permMatches_newPerm _ _⟩
  rw [hany] at h
  exact Bool.noConfusion h

theorem runBatch_upd_idem (pred : Database → Bool) (put : Nat → List Perm → Bool)
    (role_uid acl_uid : Nat) (sk : Bool)
    (hpred : ∀ db, pred ((updOne put role_uid acl_uid sk db).1) = pred db)
    (dbs : List Database) :
    (runBatchFiltered pred (updOne put role_uid acl_uid sk)
      ((runBatchFiltered pred (updOne put role_uid acl_uid sk) dbs).1)).1 =
    (runBatchFiltered pred (updOne put role_uid acl_uid sk) dbs).1 := by
  induction dbs with
  | nil => rfl
  | cons db rest ih =>
    cases hp : pred db with
    | false => simp [runBatchFiltered, hp, ih]
    | true =>
      have h2 : pred (updOne put role_uid acl_uid sk db).1 = true := by
        rw [hpred]; exact hp
      simp [runBatchFiltered, hp, h2, ih, updOne_fst_idem]

theorem update_eq_run_none (compile : String → Option (String → Bool))
    (put : Nat → List Perm → Bool) (role_uid acl_uid : Nat) (an : String)
    (sk : Bool) (dbs : List Database) (hd : dbs ≠ []) :
    AgentManager.update_database_permissions compile put role_uid acl_uid an none sk false dbs =
      ⟨(runBatchFiltered (fun _ => true) (updOne put role_uid acl_uid sk) dbs).1,
       (runBatchFiltered (fun _ => true) (updOne put role_uid acl_uid sk) dbs).2.1,
       (runBatchFiltered (fun _ => true) (updOne put role_uid acl_uid sk) dbs).2.2.1,
       true,
       .qDbsE :: (runBatchFiltered (fun _ => true) (updOne put role_uid acl_uid sk) dbs).2.2.2⟩ := by
  simp [AgentManager.update_database_permissions, hd]

theorem update_eq_run_some (compile : String → Option (String → Bool))
    (put : Nat → List Perm → Bool) (role_uid acl_uid : Nat) (an : String)
    (f : String) (pr : String → Bool) (sk : Bool) (dbs : List Database)
    (hc : compile f = some pr) (hd : dbs ≠ []) :
    AgentManager.update_database_permissions compile put role_uid acl_uid an (some f) sk false dbs =
      ⟨(runBatchFiltered (fun db => pr db.name) (updOne put role_uid acl_uid sk) dbs).1,
       (runBatchFiltered (fun db => pr db.name) (updOne put role_uid acl_uid sk) dbs).2.1,
       (runBatchFiltered (fun db => pr db.name) (updOne put role_uid acl_uid sk) dbs).2.2.1,
       true,
       .qDbsE :: (runBatchFiltered (fun db => pr db.name) (updOne put role_uid acl_uid sk) dbs).2.2.2⟩ := by
  simp [AgentManager.update_database_permissions, hd, hc]

theorem update_dbs_idem (compile : String → Option (String → Bool))
    (put : Nat → List Perm → Bool) (role_uid acl_uid : Nat) (an : String)
    (filt : Option String) (sk gf : Bool) (dbs : List Database) :
    (AgentManager.update_database_permissions compile put role_uid acl_uid an filt sk gf
      (AgentManager.update_database_permissions compile put role_uid acl_uid an filt sk gf dbs).dbs).dbs =
    (AgentManager.update_database_permissions compile put role_uid acl_uid an filt sk gf dbs).dbs := by
  cases gf with
  | true => simp [AgentManager.update_database_permissions]
  | false =>
    by_cases hd : dbs = []
    · simp [AgentManager.update_database_permissions, hd]
    · cases filt with
      | none =>
        have hne : (runBatchFiltered (fun _ => true) (updOne put role_uid acl_uid sk) dbs).1 ≠ [] := by
          rw [← List.length_pos, runBatchFiltered_length]
          exact List.length_pos.mpr hd
        rw [update_eq_run_none compile put role_uid acl_uid an sk dbs hd]
        show (AgentManager.update_database_permissions compile put role_uid acl_uid an none sk false
          ((runBatchFiltered (fun _ => true) (updOne put role_uid acl_uid sk) dbs).1)).dbs = _
        rw [update_eq_run_none compile put role_uid acl_uid an sk _ hne]
        exact runBatch_upd_idem (fun _ => true) put role_uid acl_uid sk (fun _ => rfl) dbs
      | some f =>
        cases hc : compile f with
        | none =>
          simp [AgentManager.update_database_permissions, hd, hc]
        | some pr =>
          have hne : (runBatchFiltered (fun db => pr db.name) (updOne put role_uid acl_uid sk) dbs).1 ≠ [] := by
            rw [← List.length_pos, runBatchFiltered_length]
            exact List.length_pos.mpr hd
          rw [update_eq_run_some compile put role_uid acl_uid an f pr sk dbs hc hd]
          show (AgentManager.update_database_permissions compile put role_uid acl_uid an (some f) sk false
            ((runBatchFiltered (fun db => pr db.name) (updOne put role_uid acl_uid sk) dbs).1)).dbs = _
          rw [update_eq_run_some compile put role_uid acl_uid an f pr sk _ hc hne]
          exact runBatch_upd_idem (fun db => pr db.name) put role_uid acl_uid sk
            (fun db => by
              show pr (updOne put role_uid acl_uid sk db).1.name = pr db.name
              rw [(updOne_roles_permissions_invariant put role_uid acl_uid sk db).2]) dbs

/-- C1: database permission reconciliation is idempotent.  A database
already holding the exact (role_uid, redis_acl_uid) pair is counted a
success and left unchanged with no PUT; otherwise exactly one copy of
the pair is appended in the issued PUT, a successful PUT yields the
appended list, the pair never ends up duplicated, and running
update_database_permissions on its own output reproduces the same
final permission state. -/
theorem update_database_permissions_idempotent :
    (∀ (put : Nat → List Perm → Bool) (role_uid acl_uid : Nat) (sk : Bool) (db : Database),
      db.roles_permissions.any (permMatches role_uid acl_uid) = true →
        updOne put role_uid acl_uid sk db = (db, true, [])) ∧
    (∀ (put : Nat → List Perm → Bool) (role_uid acl_uid : Nat) (sk : Bool) (db : Database),
      db.roles_permissions.any (permMatches role_uid acl_uid) = false →
        (updOne put role_uid acl_uid sk db).2.2 =
          [Event.putPermsE db.uid (db.roles_permissions ++ [newPerm role_uid acl_uid])] ∧
        (put db.uid (db.roles_permissions ++ [newPerm role_uid acl_uid]) = true →
          (updOne put role_uid acl_uid sk db).1.roles_permissions =
            db.roles_permissions ++ [newPerm role_uid acl_uid]) ∧
        (updOne put role_uid acl_uid sk db).1.roles_permissions.count
          (newPerm role_uid acl_uid) ≤ 1) ∧
    (∀ (compile : String → Option (String → Bool)) (put : Nat → List Perm → Bool)
        (role_uid acl_uid : Nat) (an : String) (filt : Option String)
        (sk gf : Bool) (dbs : List Database),
      (AgentManager.update_database_permissions compile put role_uid acl_uid an filt sk gf
        (AgentManager.update_database_permissions compile put role_uid acl_uid an filt sk gf dbs).dbs).dbs =
      (AgentManager.update_database_permissions compile put role_uid acl_uid an filt sk gf dbs).dbs) := by
  refine ⟨fun put r a sk db h => updOne_exists_skip put r a sk db h, ?_,
    fun C P r a an filt sk gf dbs => update_dbs_idem C P r a an filt sk gf dbs⟩
  intro put r a sk db h
  have hcnt : db.roles_permissions.count (newPerm r a) = 0 := count_newPerm_zero r a _ h
  cases hput : put db.uid (db.roles_permissions ++ [newPerm r a]) with
  | true =>
    refine ⟨?_, ?_, ?_⟩ <;>
      simp [updOne, h, hput, List.count_append, hcnt, List.count_cons]
  | false =>
    refine ⟨?_, ?_, ?_⟩ <;>
      simp [updOne, h, hput, hcnt]

/-- Witness for C1 at concrete inputs. -/
theorem update_database_permissions_idempotent_witness :
    updOne putTrue 7 3 false sampleDb73 = (sampleDb73, true, []) ∧
    (updOne putTrue 7 3 false sampleDb1).2.2 =
      [Event.putPermsE sampleDb1.uid (sampleDb1.roles_permissions ++ [newPerm 7 3])] ∧
    (AgentManager.update_database_permissions compileAny putTrue 7 3 "x" none false false
      (AgentManager.update_database_permissions compileAny putTrue 7 3 "x" none false false
        [sampleDb1]).dbs).dbs =
    (AgentManager.update_database_permissions compileAny putTrue 7 3 "x" none false false
      [sampleDb1]).dbs :=
  ⟨update_database_permissions_idempotent.1 putTrue 7 3 false sampleDb73 (by decide),
   (update_database_permissions_idempotent.2.1 putTrue 7 3 false sampleDb1 (by decide)).1,
   update_database_permissions_idempotent.2.2 compileAny putTrue 7 3 "x" none false false
     [sampleDb1]⟩

/-- C7: when the database filter pattern fails to compile, both
reconciliation and cleanup return failure with the database states
untouched and no PUT issued: the whole result is the unchanged list,
zero counters, false, and only the initial GET in the trace. -/
theorem invalid_filter_aborts_before_mutation :
    ∀ (compile : String → Option (String → Bool)) (s : String),
      compile s = none →
      ∀ (put : Nat → List Perm → Bool) (role_uid acl_uid : Nat) (an : String)
        (sk gf : Bool) (dbs : List Database),
        AgentManager.update_database_permissions compile put role_uid acl_uid an
          (some s) sk gf dbs = ⟨dbs, 0, 0, false, [Event.qDbsE]⟩ ∧
        AgentManager.cleanup_database_permissions compile put role_uid acl_uid an
          (some s) gf dbs = ⟨dbs, 0, 0, false, [Event.qDbsE]⟩ := by
  intro compile s h put r a an sk gf dbs
  constructor
  · simp [AgentManager.update_database_permissions, h]
  · simp [AgentManager.cleanup_database_permissions, h]

/-- Witness for C7 at a concrete invalid pattern. -/
theorem invalid_filter_aborts_before_mutation_witness :
    compileNone "(" = none ∧
    AgentManager.update_database_permissions compileNone putTrue 7 3 "x" (some "(")
      false false [sampleDb73] = ⟨[sampleDb73], 0, 0, false, [Event.qDbsE]⟩ ∧
    AgentManager.cleanup_database_permissions compileNone putTrue 7 3 "x" (some "(")
      false [sampleDb73] = ⟨[sampleDb73], 0, 0, false, [Event.qDbsE]⟩ :=
  ⟨rfl,
   (invalid_filter_aborts_before_mutation compileNone "(" rfl putTrue 7 3 "x"
      false false [sampleDb73]).1,
   (invalid_filter_aborts_before_mutation compileNone "(" rfl putTrue 7 3 "x"
      false false [sampleDb73]).2⟩

/-- C9: the skip_existing parameter has no effect: reconciliation with
skip_existing true and false returns identical full results (states,
counters, boolean, trace), and a database that already has the pair
is skipped and counted a success under either value. -/
theorem skip_existing_no_effect :
    (∀ (compile : String → Option (String → Bool)) (put : Nat → List Perm → Bool)
        (role_uid acl_uid : Nat) (an : String) (filt : Option String)
        (gf : Bool) (dbs : List Database),
      AgentManager.update_database_permissions compile put role_uid acl_uid an filt true gf dbs =
        AgentManager.update_database_permissions compile put role_uid acl_uid an filt false gf dbs) ∧
    (∀ (put : Nat → List Perm → Bool) (role_uid acl_uid : Nat) (sk : Bool) (db : Database),
      db.roles_permissions.any (permMatches role_uid acl_uid) = true →
        updOne put role_uid acl_uid sk db = (db, true, [])) := by
  constructor
  · intro C P r a an filt gf dbs
    have hf : updOne P r a true = updOne P r a false :=
      funext (fun db => updOne_skip_indep P r a true false db)
    simp only [AgentManager.update_database_permissions, hf]
  · exact fun put r a sk db h => updOne_exists_skip put r a sk db h

/-- Witness for C9 at concrete inputs. -/
theorem skip_existing_no_effect_witness :
    AgentManager.update_database_permissions compileAny putFalse 7 3 "x" (some "p")
      true false [sampleDb73, sampleDb1] =
    AgentManager.update_database_permissions compileAny putFalse 7 3 "x" (some "p")
      false false [sampleDb73, sampleDb1] ∧
    updOne putFalse 7 3 true sampleDb73 = (sampleDb73, true, []) :=
  ⟨skip_existing_no_effect.1 compileAny putFalse 7 3 "x" (some "p") false
     [sampleDb73, sampleDb1],
   skip_existing_no_effect.2 putFalse 7 3 true sampleDb73 (by decide)⟩

theorem clOne_no_match (put : Nat → List Perm → Bool) (role_uid acl_uid : Nat)
    (db : Database)
    (h : db.roles_permissions.any (permMatches role_uid acl_uid) = false) :
    clOne put role_uid acl_uid db = (db, true, []) := by
  have hf : db.roles_permissions.filter (fun p => !(permMatches role_uid acl_uid p)) =
      db.roles_permissions := by
    apply List.filter_eq_self.mpr
    intro p hp
    rw [List.any_eq_false] at h
    simpa using h p hp
  simp [clOne, hf]

theorem filter_length_lt_of_any (pm : Perm → Bool) (l : List Perm)
    (h : l.any pm = true) :
    (l.filter (fun p => !pm p)).length < l.length := by
  induction l with
  | nil => simp at h
  | cons p rest ih =>
    cases hp : pm p with
    | true =>
      simp only [List.filter_cons, hp, Bool.not_true, Bool.false_eq_true, if_false]
      exact Nat.lt_succ_of_le (List.length_filter_le _ _)
    | false =>
      have h2 : rest.any pm = true := by
        rw [List.any_cons, hp] at h
        simpa using h
      simp only [List.filter_cons, hp, Bool.not_false, if_true, List.length_cons]
      exact Nat.succ_lt_succ (ih h2)

theorem clOne_count (put : Nat → List Perm → Bool) (role_uid acl_uid : Nat)
    (db : Database) (p : Perm)
    (hput : put db.uid
      (db.roles_permissions.filter (fun q => !(permMatches role_uid acl_uid q))) = true) :
    (clOne put role_uid acl_uid db).1.roles_permissions.count p =
      if permMatches role_uid acl_uid p then 0 else db.roles_permissions.count p := by
  by_cases h : db.roles_permissions.any (permMatches role_uid acl_uid) = true
  · have hlt := filter_length_lt_of_any (permMatches role_uid acl_uid) _ h
    simp only [clOne, hlt, if_true, hput]
    by_cases hp : permMatches role_uid acl_uid p = true
    · rw [if_pos hp, List.count_eq_zero]
      intro hmem
      rw [List.mem_filter] at hmem
      rw [hp] at hmem
      simp at hmem
    · rw [if_neg hp]
      exact List.count_filter (by simp [hp])
  · have h0 : db.roles_permissions.any (permMatches role_uid acl_uid) = false :=
      Bool.not_eq_true _ ▸ Bool.eq_false_iff.mpr h
    rw [clOne_no_match put role_uid acl_uid db h0]
    by_cases hp : permMatches role_uid acl_uid p = true
    · rw [if_pos hp, List.count_eq_zero]
      intro hmem
      have : db.roles_permissions.any (permMatches role_uid acl_uid) = true :=
        List.any_eq_true.mpr ⟨p, hmem, hp⟩
      rw [this] at h0
      exact Bool.noConfusion h0
    · rw [if_neg hp]

theorem clOne_fst_of_put_true (put : Nat → List Perm → Bool) (role_uid acl_uid : Nat)
    (db : Database)
    (hput : put db.uid
      (db.roles_permissions.filter (fun q => !(permMatches role_uid acl_uid q))) = true) :
    (clOne put role_uid acl_uid db).1 =
      { db with roles_permissions :=
          db.roles_permissions.filter (fun q => !(permMatches role_uid acl_uid q)) } := by
  by_cases h : db.roles_permissions.any (permMatches role_uid acl_uid) = true
  · have hlt := filter_length_lt_of_any (permMatches role_uid acl_uid) _ h
    simp [clOne, hlt, hput]
  · have h0 : db.roles_permissions.any (permMatches role_uid acl_uid) = false :=
      Bool.not_eq_true _ ▸ Bool.eq_false_iff.mpr h
    have hf : db.roles_permissions.filter (fun p => !(permMatches role_uid acl_uid p)) =
        db.roles_permissions := by
      apply List.filter_eq_self.mpr
      intro p hp
      rw [List.any_eq_false] at h0
      simpa using h0 p hp
    rw [clOne_no_match put role_uid acl_uid db h0, hf]

theorem cleanup_eq_run_none (compile : String → Option (String → Bool))
    (put : Nat → List Perm → Bool) (role_uid acl_uid : Nat) (an : String)
    (dbs : List Database) (hd : dbs ≠ []) :
    AgentManager.cleanup_database_permissions compile put role_uid acl_uid an none false dbs =
      ⟨(runBatchFiltered (fun _ => true) (clOne put role_uid acl_uid) dbs).1,
       (runBatchFiltered (fun _ => true) (clOne put role_uid acl_uid) dbs).2.1,
       (runBatchFiltered (fun _ => true) (clOne put role_uid acl_uid) dbs).2.2.1,
       true,
       .qDbsE :: (runBatchFiltered (fun _ => true) (clOne put role_uid acl_uid) dbs).2.2.2⟩ := by
  simp [AgentManager.cleanup_database_permissions, hd]

/-- C4: cleanup removes exactly the entries matching both target uids.
In the database state resulting from a successful cleanup PUT, every
permission matching both uids has count zero and every other
permission keeps its count; a database with no matching entry is
returned unchanged with no PUT issued and counted a success; and on a
batch where all PUTs succeed the new state of every database is its
old list with exactly the both-uid matches filtered out. -/
theorem cleanup_removes_exact_pairs :
    (∀ (put : Nat → List Perm → Bool) (role_uid acl_uid : Nat) (db : Database) (p : Perm),
      put db.uid
        (db.roles_permissions.filter (fun q => !(permMatches role_uid acl_uid q))) = true →
        (clOne put role_uid acl_uid db).1.roles_permissions.count p =
          if permMatches role_uid acl_uid p then 0 else db.roles_permissions.count p) ∧
    (∀ (put : Nat → List Perm → Bool) (role_uid acl_uid : Nat) (db : Database),
      db.roles_permissions.any (permMatches role_uid acl_uid) = false →
        clOne put role_uid acl_uid db = (db, true, [])) ∧
    (∀ (compile : String → Option (String → Bool)) (put : Nat → List Perm → Bool)
        (role_uid acl_uid : Nat) (an : String) (dbs : List Database),
      (∀ u ps, put u ps = true) → dbs ≠ [] →
        (AgentManager.cleanup_database_permissions compile put role_uid acl_uid an
          none false dbs).dbs =
        dbs.map (fun db =>
          { db with roles_permissions :=
              db.roles_permissions.filter (fun q => !(permMatches role_uid acl_uid q)) })) := by
  refine ⟨fun put r a db p hput => clOne_count put r a db p hput,
    fun put r a db h => clOne_no_match put r a db h, ?_⟩
  intro compile put r a an dbs hput hd
  rw [cleanup_eq_run_none compile put r a an dbs hd]
  show (runBatchFiltered (fun _ => true) (clOne put r a) dbs).1 = _
  rw [runBatchFiltered_fst]
  apply List.map_congr_left
  intro db _
  simp only [if_true]
  exact clOne_fst_of_put_true put r a db (hput _ _)

/-- Witness for C4: target pair (7, 3); the database holding (7, 3)
loses it, the database holding only (7, 4) keeps it untouched. -/
theorem cleanup_removes_exact_pairs_witness :
    (clOne putTrue 7 3 sampleDb73).1.roles_permissions.count (newPerm 7 3) = 0 ∧
    (clOne putTrue 7 3 sampleDb73).1.roles_permissions.count ⟨some 7, some 4⟩ =
      sampleDb73.roles_permissions.count ⟨some 7, some 4⟩ ∧
    clOne putTrue 7 3 sampleDb74 = (sampleDb74, true, []) ∧
    (AgentManager.cleanup_database_permissions compileAny putTrue 7 3 "x" none false
      [sampleDb73, sampleDb74]).dbs =
      [sampleDb73, sampleDb74].map (fun db =>
        { db with roles_permissions :=
            db.roles_permissions.filter (fun q => !(permMatches 7 3 q)) }) := by
  refine ⟨?_, ?_,
    cleanup_removes_exact_pairs.2.1 putTrue 7 3 sampleDb74 (by decide),
    cleanup_removes_exact_pairs.2.2 compileAny putTrue 7 3 "x" [sampleDb73, sampleDb74]
      (fun _ _ => rfl) (by decide)⟩
  · have h := cleanup_removes_exact_pairs.1 putTrue 7 3 sampleDb73 (newPerm 7 3) (by decide)
    rw [h]
    decide
  · have h := cleanup_removes_exact_pairs.1 putTrue 7 3 sampleDb73 ⟨some 7, some 4⟩ (by decide)
    rw [h]
    decide

/-- C8: the API client PUT helper returns true exactly on HTTP 200
and false on every other status or a raised transport error; driving
the batch reconciliation with it, every database of the batch is
processed whatever the individual PUT outcomes are: the batch returns
true with total equal to the database count, the success counter
adds up the per-database outcomes, and each database ends in its own
individually-determined state. -/
theorem put_permissions_true_iff_200 :
    (∀ o : HttpOutcome,
      RedisEnterpriseAPI.update_database_permissions o = true ↔ o = .status 200) ∧
    (∀ (compile : String → Option (String → Bool))
        (http : Nat → List Perm → HttpOutcome) (role_uid acl_uid : Nat)
        (an : String) (sk : Bool) (dbs : List Database),
      dbs ≠ [] →
        (AgentManager.update_database_permissions compile
          (fun u ps => RedisEnterpriseAPI.update_database_permissions (http u ps))
          role_uid acl_uid an none sk false dbs).ok = true ∧
        (AgentManager.update_database_permissions compile
          (fun u ps => RedisEnterpriseAPI.update_database_permissions (http u ps))
          role_uid acl_uid an none sk false dbs).total = dbs.length ∧
        (AgentManager.update_database_permissions compile
          (fun u ps => RedisEnterpriseAPI.update_database_permissions (http u ps))
          role_uid acl_uid an none sk false dbs).succ =
          dbs.countP (fun db =>
            (updOne (fun u ps => RedisEnterpriseAPI.update_database_permissions (http u ps))
              role_uid acl_uid sk db).2.1) ∧
        (AgentManager.update_database_permissions compile
          (fun u ps => RedisEnterpriseAPI.update_database_permissions (http u ps))
          role_uid acl_uid an none sk false dbs).dbs =
          dbs.map (fun db =>
            (updOne (fun u ps => RedisEnterpriseAPI.update_database_permissions (http u ps))
              role_uid acl_uid sk db).1)) := by
  constructor
  · intro o
    cases o with
    | exc => simp [RedisEnterpriseAPI.update_database_permissions]
    | status c =>
      by_cases hc : c = 200
      · simp [RedisEnterpriseAPI.update_database_permissions, hc]
      · simp [RedisEnterpriseAPI.update_database_permissions, hc]
  · intro C http r a an sk dbs hd
    rw [update_eq_run_none C _ r a an sk dbs hd]
    refine ⟨rfl, ?_, ?_, ?_⟩
    · show (runBatchFiltered (fun _ => true) _ dbs).2.2.1 = dbs.length
      rw [runBatchFiltered_total, List.filter_true]
    · show (runBatchFiltered (fun _ => true) _ dbs).2.1 = _
      rw [runBatchFiltered_succ, List.filter_true]
    · show (runBatchFiltered (fun _ => true) _ dbs).1 = _
      rw [runBatchFiltered_fst]
      simp

/-- Witness for C8: statuses 200, 500 and a transport error, and a
two-database batch whose first PUT fails while the second database is
still processed. -/
theorem put_permissions_true_iff_200_witness :
    (RedisEnterpriseAPI.update_database_permissions (.status 200) = true ↔
      HttpOutcome.status 200 = .status 200) ∧
    (RedisEnterpriseAPI.update_database_permissions (.status 500) = true ↔
      HttpOutcome.status 500 = .status 200) ∧
    (RedisEnterpriseAPI.update_database_permissions .exc = true ↔
      HttpOutcome.exc = .status 200) ∧
    (AgentManager.update_database_permissions compileAny
      (fun u _ => RedisEnterpriseAPI.update_database_permissions
        (if u = 1 then .exc else .status 200))
      7 3 "x" none false false [sampleDb1, sampleDb74]).total = 2 := by
  refine ⟨put_permissions_true_iff_200.1 (.status 200),
    put_permissions_true_iff_200.1 (.status 500),
    put_permissions_true_iff_200.1 .exc, ?_⟩
  have h := (put_permissions_true_iff_200.2 compileAny
    (fun u _ => if u = 1 then .exc else .status 200) 7 3 "x" false
    [sampleDb1, sampleDb74] (by decide)).2.1
  rw [h]
  decide

theorem range5 : List.range 5 = [0, 1, 2, 3, 4] := rfl

theorem range10 : List.range 10 = [0, 1, 2, 3, 4, 5, 6, 7, 8, 9] := rfl

theorem updOne_evs_all (pb : Event → Bool)
    (hput : ∀ u ps, pb (.putPermsE u ps) = true) (put : Nat → List Perm → Bool)
    (role_uid acl_uid : Nat) (sk : Bool) (db : Database) :
    ((updOne put role_uid acl_uid sk db).2.2).all pb = true := by
  simp only [updOne]
  split
  · split <;> simp
  · split <;> simp [hput]

theorem clOne_evs_all (pb : Event → Bool)
    (hput : ∀ u ps, pb (.putPermsE u ps) = true) (put : Nat → List Perm → Bool)
    (role_uid acl_uid : Nat) (db : Database) :
    ((clOne put role_uid acl_uid db).2.2).all pb = true := by
  simp only [clOne]
  split
  · split <;> simp [hput]
  · simp

theorem update_evs_all (pb : Event → Bool) (hq : pb .qDbsE = true)
    (hput : ∀ u ps, pb (.putPermsE u ps) = true)
    (compile : String → Option (String → Bool)) (put : Nat → List Perm → Bool)
    (role_uid acl_uid : Nat) (an : String) (filt : Option String)
    (sk gf : Bool) (dbs : List Database) :
    ((AgentManager.update_database_permissions compile put role_uid acl_uid an
      filt sk gf dbs).evs).all pb = true := by
  cases gf with
  | true => simp [AgentManager.update_database_permissions, hq]
  | false =>
    by_cases hd : dbs = []
    · simp [AgentManager.update_database_permissions, hd, hq]
    · cases filt with
      | none =>
        rw [update_eq_run_none compile put role_uid acl_uid an sk dbs hd]
        simp only [List.all_cons, hq, Bool.true_and]
        exact runBatchFiltered_evs_all pb _ _
          (fun db => updOne_evs_all pb hput put role_uid acl_uid sk db) dbs
      | some f =>
        cases hc : compile f with
        | none => simp [AgentManager.update_database_permissions, hd, hc, hq]
        | some pr =>
          rw [update_eq_run_some compile put role_uid acl_uid an f pr sk dbs hc hd]
          simp only [List.all_cons, hq, Bool.true_and]
          exact runBatchFiltered_evs_all pb _ _
            (fun db => updOne_evs_all pb hput put role_uid acl_uid sk db) dbs

theorem createRetryGo_evs_all {α : Type} (pb : Event → Bool) (getName : α → String)
    (mk : Nat → Except ApiErr α) (q : Except Unit (List α)) (name : String)
    (maxR : Nat) (mkEv qEv : Event) (hmk : pb mkEv = true) (hq : pb qEv = true)
    (hs : ∀ n, pb (Event.sleepE n) = true) (atts : List Nat) :
    ((createRetryGo getName mk q name maxR mkEv qEv atts).2).all pb = true := by
  induction atts with
  | nil => simp [createRetryGo]
  | cons a rest ih =>
    simp only [createRetryGo]
    cases hmka : mk a with
    | ok r => simp [hmk]
    | error e =>
      cases e with
      | other => simp [hmk]
      | conflict =>
        by_cases hlt : a < maxR - 1
        · simp [hlt, hmk, hs, ih]
        · cases q with
          | ok rs =>
            cases hfr : List.find? (fun x => getName x == name) rs with
            | some r => simp [hlt, hfr, hmk, hq]
            | none => simp [hlt, hfr, hmk, hq]
          | error e2 => simp [hlt, hmk, hq]

theorem repairRetryGo_evs_all {α : Type} (pb : Event → Bool)
    (mk : Nat → Except ApiErr α) (maxR : Nat) (mkEv : Event)
    (hmk : pb mkEv = true) (hs : ∀ n, pb (Event.sleepE n) = true) (atts : List Nat) :
    ((repairRetryGo mk maxR mkEv atts).2).all pb = true := by
  induction atts with
  | nil => simp [repairRetryGo]
  | cons a rest ih =>
    simp only [repairRetryGo]
    cases hmka : mk a with
    | ok r => simp [hmk]
    | error e =>
      cases e with
      | other => simp [hmk]
      | conflict =>
        by_cases hlt : a < maxR - 1
        · simp [hlt, hmk, hs, ih]
        · simp [hlt, hmk]

theorem createUpdatePhase_noDelete (compile : String → Option (String → Bool))
    (o : CreateOracle) (an : String) (filt : Option String) (sk sa : Bool)
    (aclUid roleUid : Nat) (evs : List Event)
    (h : evs.all (fun e => !e.isDelete) = true) :
    ((createUpdatePhase compile o an filt sk sa aclUid roleUid evs).2).all
      (fun e => !e.isDelete) = true := by
  cases sa with
  | true => simpa [createUpdatePhase] using h
  | false =>
    simp only [createUpdatePhase, Bool.false_eq_true, if_false, List.all_append]
    rw [h]
    simp only [Bool.true_and]
    exact update_evs_all _ rfl (fun _ _ => rfl) compile o.up_put roleUid aclUid an
      filt sk o.up_getFails o.up_dbs

theorem createUserPhase_noDelete (compile : String → Option (String → Bool))
    (o : CreateOracle) (an : String) (filt : Option String) (sk sa su : Bool)
    (ex0 : Option Found) (maxR : Option Nat) (acl role : Resource) (evs : List Event)
    (h : evs.all (fun e => !e.isDelete) = true) :
    ((createUserPhase compile o an filt sk sa su ex0 maxR acl role evs).2).all
      (fun e => !e.isDelete) = true := by
  have ht : ∀ mr, ((AgentManager.create_with_retry UserRes.name o.mk_user o.q_users
      an mr .createUserE .qUsersE).2).all (fun e => !e.isDelete) = true :=
    fun mr => createRetryGo_evs_all _ UserRes.name o.mk_user o.q_users an mr
      .createUserE .qUsersE rfl rfl (fun _ => rfl) _
  simp only [createUserPhase]
  split
  · exact createUpdatePhase_noDelete compile o an filt sk sa acl.uid role.uid evs h
  · split
    · exact createUpdatePhase_noDelete compile o an filt sk sa acl.uid role.uid evs h
    · split
      · exact h
      · split
        · exact createUpdatePhase_noDelete compile o an filt sk sa acl.uid role.uid _
            (by simp [List.all_append, h, ht])
        · exact createUpdatePhase_noDelete compile o an filt sk sa acl.uid role.uid _
            (by simp [List.all_append, h, ht])
        · simp [List.all_append, h, ht]
        · simp [List.all_append, h, ht]

theorem createRolePhase_noDelete (compile : String → Option (String → Bool))
    (o : CreateOracle) (an : String) (filt : Option String) (sk sa su : Bool)
    (ex0 : Option Found) (maxR : Option Nat) (acl : Resource) (evs : List Event)
    (h : evs.all (fun e => !e.isDelete) = true) :
    ((createRolePhase compile o an filt sk sa su ex0 maxR acl evs).2).all
      (fun e => !e.isDelete) = true := by
  have ht : ∀ mr, ((AgentManager.create_with_retry Resource.name o.mk_role o.q_roles
      (an ++ "-role") mr .createRoleE .qRolesE).2).all (fun e => !e.isDelete) = true :=
    fun mr => createRetryGo_evs_all _ Resource.name o.mk_role o.q_roles (an ++ "-role")
      mr .createRoleE .qRolesE rfl rfl (fun _ => rfl) _
  simp only [createRolePhase]
  split
  · exact createUserPhase_noDelete compile o an filt sk sa su ex0 maxR acl _ evs h
  · split
    · exact h
    · split
      · apply createUserPhase_noDelete
        simp [List.all_append, h, ht]
      · apply createUserPhase_noDelete
        simp [List.all_append, h, ht]
      · simp [List.all_append, h, ht]
      · simp [List.all_append, h, ht]

theorem createAclPhase_noDelete (compile : String → Option (String → Bool))
    (o : CreateOracle) (an : String) (filt : Option String) (sk sa su : Bool)
    (ex0 : Option Found) (evs : List Event)
    (h : evs.all (fun e => !e.isDelete) = true) :
    ((createAclPhase compile o an filt sk sa su ex0 evs).2).all
      (fun e => !e.isDelete) = true := by
  have ht : ((AgentManager.create_with_retry Resource.name o.mk_acl o.q_acls
      (an ++ "-acl") 5 .createAclE .qAclsE).2).all (fun e => !e.isDelete) = true :=
    createRetryGo_evs_all _ Resource.name o.mk_acl o.q_acls (an ++ "-acl")
      5 .createAclE .qAclsE rfl rfl (fun _ => rfl) _
  simp only [createAclPhase]
  split
  · exact createRolePhase_noDelete compile o an filt sk sa su ex0 none _ evs h
  · split
    · exact createRolePhase_noDelete compile o an filt sk sa su ex0 (some 5) _ _
        (by simp [List.all_append, h, ht])
    · exact createRolePhase_noDelete compile o an filt sk sa su ex0 (some 5) _ _
        (by simp [List.all_append, h, ht])
    · simp [List.all_append, h, ht]
    · simp [List.all_append, h, ht]

theorem repairFinish_noDelete (compile : String → Option (String → Bool))
    (o : RepairOracle) (an : String) (filt : Option String) (sa : Bool)
    (acl0 role0 : Option Resource) (evs : List Event)
    (h : evs.all (fun e => !e.isDelete) = true) :
    ((repairFinish compile o an filt sa acl0 role0 evs).2).all
      (fun e => !e.isDelete) = true := by
  simp only [repairFinish]
  split
  · split
    · exact h
    · simp only [List.all_append]
      rw [h]
      simp only [Bool.true_and]
      exact update_evs_all _ rfl (fun _ _ => rfl) compile o.up_put _ _ an filt false
        o.up_getFails o.up_dbs
  · exact h

theorem repairUserPhase_noDelete (compile : String → Option (String → Bool))
    (o : RepairOracle) (an : String) (filt : Option String) (sa su : Bool)
    (ex : Found) (acl0 role0 : Option Resource) (evs : List Event)
    (h : evs.all (fun e => !e.isDelete) = true) :
    ((repairUserPhase compile o an filt sa su ex acl0 role0 evs).2).all
      (fun e => !e.isDelete) = true := by
  have ht : ((AgentManager.repair_retry o.mk_user 5 .createUserE).2).all
      (fun e => !e.isDelete) = true :=
    repairRetryGo_evs_all _ o.mk_user 5 .createUserE rfl (fun _ => rfl) _
  simp only [repairUserPhase]
  split
  · split
    · exact h
    · split
      · apply repairFinish_noDelete
        simp [List.all_append, h, ht]
      · apply repairFinish_noDelete
        simp [List.all_append, h, ht]
      · simp [List.all_append, h, ht]
  · exact repairFinish_noDelete compile o an filt sa acl0 role0 evs h

theorem repairRolePhase_noDelete (compile : String → Option (String → Bool))
    (o : RepairOracle) (an : String) (filt : Option String) (sa su : Bool)
    (ex : Found) (acl0 : Option Resource) (evs : List Event)
    (h : evs.all (fun e => !e.isDelete) = true) :
    ((repairRolePhase compile o an filt sa su ex acl0 evs).2).all
      (fun e => !e.isDelete) = true := by
  have ht : ((AgentManager.repair_retry o.mk_role 5 .createRoleE).2).all
      (fun e => !e.isDelete) = true :=
    repairRetryGo_evs_all _ o.mk_role 5 .createRoleE rfl (fun _ => rfl) _
  simp only [repairRolePhase]
  split
  · exact repairUserPhase_noDelete compile o an filt sa su ex acl0 _ evs h
  · split
    · exact repairUserPhase_noDelete compile o an filt sa su ex acl0 _ _
        (by simp [List.all_append, h, ht])
    · exact repairUserPhase_noDelete compile o an filt sa su ex acl0 _ _
        (by simp [List.all_append, h, ht])
    · simp [List.all_append, h, ht]

theorem repairAclPhase_noDelete (compile : String → Option (String → Bool))
    (o : RepairOracle) (an : String) (filt : Option String) (sa su : Bool)
    (ex : Found) (evs : List Event)
    (h : evs.all (fun e => !e.isDelete) = true) :
    ((repairAclPhase compile o an filt sa su ex evs).2).all
      (fun e => !e.isDelete) = true := by
  have ht : ((AgentManager.repair_retry o.mk_acl 5 .createAclE).2).all
      (fun e => !e.isDelete) = true :=
    repairRetryGo_evs_all _ o.mk_acl 5 .createAclE rfl (fun _ => rfl) _
  simp only [repairAclPhase]
  split
  · exact repairRolePhase_noDelete compile o an filt sa su ex _ evs h
  · split
    · exact repairRolePhase_noDelete compile o an filt sa su ex _ _
        (by simp [List.all_append, h, ht])
    · exact repairRolePhase_noDelete compile o an filt sa su ex _ _
        (by simp [List.all_append, h, ht])
    · simp [List.all_append, h, ht]

theorem repair_noDelete (compile : String → Option (String → Bool))
    (o : RepairOracle) (an : String) (filt : Option String) (sa su : Bool) :
    ((AgentManager.repair_missing_components compile o an filt sa su).2).all
      (fun e => !e.isDelete) = true := by
  simp only [AgentManager.repair_missing_components]
  split
  · rfl
  · split
    · rfl
    · exact repairAclPhase_noDelete compile o an filt sa su _ _ rfl

/-- C2: during create, a component creation loop that hits 409
Conflict on every attempt makes exactly 5 POST attempts with
3-second sleeps between them; on the final conflicting attempt it
re-queries the remote list, adopts the resource carrying the expected
name when one is found and fails otherwise (also when the re-query
itself raises); in create_new_agent the adopted uid is then used for
the rest of the run, and the no-adoption case makes create return
false. -/
theorem create_conflict_retry_adopts :
    (∀ (α : Type) (getName : α → String) (mk : Nat → Except ApiErr α)
        (q : Except Unit (List α)) (name : String) (mkEv qEv : Event),
      (∀ i, mk i = .error .conflict) →
        (AgentManager.create_with_retry getName mk q name 5 mkEv qEv).2 =
          [mkEv, .sleepE 3, mkEv, .sleepE 3, mkEv, .sleepE 3, mkEv, .sleepE 3,
           mkEv, qEv] ∧
        (∀ l r, q = .ok l → l.find? (fun x => getName x == name) = some r →
          (AgentManager.create_with_retry getName mk q name 5 mkEv qEv).1 = .adopted r) ∧
        (∀ l, q = .ok l → l.find? (fun x => getName x == name) = none →
          (AgentManager.create_with_retry getName mk q name 5 mkEv qEv).1 = .failed) ∧
        (∀ e, q = .error e →
          (AgentManager.create_with_retry getName mk q name 5 mkEv qEv).1 = .failed)) ∧
    (∀ (C : String → Option (String → Bool)) (o : CreateOracle) (an : String)
        (filt : Option String) (sk fc : Bool) (a2 r : Resource) (u : UserRes)
        (l : List Resource),
      AgentManager.find_existing_agent o.fe_acls o.fe_roles o.fe_users an = none →
      (∀ i, o.mk_acl i = .error .conflict) →
      o.q_acls = .ok l →
      l.find? (fun x => x.name == an ++ "-acl") = some a2 →
      o.mk_role 0 = .ok r → o.mk_user 0 = .ok u →
        AgentManager.create_new_agent C o an filt sk fc false false =
          (.ret true, [.qAclsE, .qRolesE, .qUsersE,
            .createAclE, .sleepE 3, .createAclE, .sleepE 3, .createAclE, .sleepE 3,
            .createAclE, .sleepE 3, .createAclE, .qAclsE, .createRoleE, .createUserE] ++
            (AgentManager.update_database_permissions C o.up_put r.uid a2.uid an filt sk
              o.up_getFails o.up_dbs).evs)) ∧
    (∀ (C : String → Option (String → Bool)) (o : CreateOracle) (an : String)
        (filt : Option String) (sk fc sa su : Bool) (l : List Resource),
      AgentManager.find_existing_agent o.fe_acls o.fe_roles o.fe_users an = none →
      (∀ i, o.mk_acl i = .error .conflict) →
      o.q_acls = .ok l →
      l.find? (fun x => x.name == an ++ "-acl") = none →
        AgentManager.create_new_agent C o an filt sk fc sa su =
          (.ret false, [.qAclsE, .qRolesE, .qUsersE,
            .createAclE, .sleepE 3, .createAclE, .sleepE 3, .createAclE, .sleepE 3,
            .createAclE, .sleepE 3, .createAclE, .qAclsE])) := by
  refine ⟨?_, ?_, ?_⟩
  · intro α getName mk q name mkEv qEv hconf
    refine ⟨?_, ?_, ?_, ?_⟩
    · cases q with
      | ok rs =>
        cases hfr : List.find? (fun x => getName x == name) rs with
        | some r =>
          simp [AgentManager.create_with_retry, createRetryGo, range5, hconf, hfr]
        | none =>
          simp [AgentManager.create_with_retry, createRetryGo, range5, hconf, hfr]
      | error e =>
        simp [AgentManager.create_with_retry, createRetryGo, range5, hconf]
    · intro l r hq hf
      subst hq
      simp [AgentManager.create_with_retry, createRetryGo, range5, hconf, hf]
    · intro l hq hf
      subst hq
      simp [AgentManager.create_with_retry, createRetryGo, range5, hconf, hf]
    · intro e hq
      subst hq
      simp [AgentManager.create_with_retry, createRetryGo, range5, hconf]
  · intro C o an filt sk fc a2 r u l hfind hconf hq hf hrole huser
    simp [AgentManager.create_new_agent, hfind, createAclPhase, createRolePhase,
      createUserPhase, createUpdatePhase, AgentManager.create_with_retry, createRetryGo,
      range5, hconf, hq, hf, hrole, huser]
  · intro C o an filt sk fc sa su l hfind hconf hq hf
    simp [AgentManager.create_new_agent, hfind, createAclPhase,
      AgentManager.create_with_retry, createRetryGo, range5, hconf, hq, hf]

/-- Witness for C2 at a concrete oracle whose ACL creation always
conflicts and whose re-query exposes the ACL under uid 42. -/
theorem create_conflict_retry_adopts_witness :
    (AgentManager.create_with_retry Resource.name conflictCreateOracle.mk_acl
      conflictCreateOracle.q_acls "x-acl" 5 .createAclE .qAclsE).1 =
      .adopted ⟨"x-acl", 42⟩ ∧
    AgentManager.create_new_agent compileAny conflictCreateOracle "x" none false false
      false false =
      (.ret true, [.qAclsE, .qRolesE, .qUsersE,
        .createAclE, .sleepE 3, .createAclE, .sleepE 3, .createAclE, .sleepE 3,
        .createAclE, .sleepE 3, .createAclE, .qAclsE, .createRoleE, .createUserE] ++
        (AgentManager.update_database_permissions compileAny conflictCreateOracle.up_put
          17 42 "x" none false conflictCreateOracle.up_getFails
          conflictCreateOracle.up_dbs).evs) :=
  ⟨((create_conflict_retry_adopts.1 Resource (fun x => x.name)
      conflictCreateOracle.mk_acl conflictCreateOracle.q_acls "x-acl"
      .createAclE .qAclsE (fun _ => rfl)).2.1 [⟨"x-acl", 42⟩] ⟨"x-acl", 42⟩ rfl
      (by decide)),
   create_conflict_retry_adopts.2.1 compileAny conflictCreateOracle "x" none false false
     ⟨"x-acl", 42⟩ ⟨"x-role", 17⟩ ⟨"x", "x@example.com", 19⟩ [⟨"x-acl", 42⟩]
     (by decide) (fun _ => rfl) rfl (by decide) rfl rfl⟩

/-- C3 counterexample: a PARTIAL agent (role uid 7 and user uid 9
exist, the ACL does not) provisioned with force performs no deletion
at all: the full trace of the run has no delete event, although the
claim requires the existing role and user to be deleted. -/
theorem create_force_on_partial_counterexample :
    AgentManager.create_new_agent compileAny partialForceOracle "x" none false true
      false false =
      (.ret true, [.qAclsE, .qRolesE, .qUsersE, .createAclE, .qDbsE,
        .putPermsE 1 [⟨some 7, some 3⟩]]) ∧
    (([.qAclsE, .qRolesE, .qUsersE, .createAclE, .qDbsE,
        .putPermsE 1 [⟨some 7, some 3⟩]] : List Event).all (fun e => !e.isDelete))
      = true ∧
    AgentManager.find_existing_agent partialForceOracle.fe_acls
      partialForceOracle.fe_roles partialForceOracle.fe_users "x" =
      some ⟨none, some ⟨"x-role", 7⟩, some ⟨"x", "x@example.com", 9⟩⟩ := by
  decide

/-- C3 (amended): for a COMPLETE agent, create with force first runs
the permission cleanup for the existing role and ACL uids, then
deletes user, role, ACL in that order, each deletion followed by the
propagation poll (10 retries at 2-second delay, shown by the poll
pattern of wait_for_component_deletion at the arguments create
passes), then recreates ACL, role, user in that order and reconciles
permissions with the new uids.  For a PARTIAL agent, create with
force deletes nothing: no delete event ever appears in its trace, and
in the sampled family where only the ACL is missing exactly one ACL
is created while the existing uids are reused. -/
theorem create_force_complete_teardown :
    (∀ (lists : Nat → Except Unit (List String)) (qEv : Event) (name : String)
        (lu : List String),
      (∀ i, lists i = .ok lu) → lu.any (fun n => n == name) = true →
        AgentManager.wait_for_component_deletion lists qEv name 10 2 =
          (false, [qEv, .sleepE 2, qEv, .sleepE 2, qEv, .sleepE 2, qEv, .sleepE 2,
            qEv, .sleepE 2, qEv, .sleepE 2, qEv, .sleepE 2, qEv, .sleepE 2,
            qEv, .sleepE 2, qEv])) ∧
    (∀ (C : String → Option (String → Bool)) (o : CreateOracle) (an : String)
        (filt : Option String) (sk : Bool) (a r : Resource) (u : UserRes)
        (a2 r2 : Resource) (u2 : UserRes) (bu br ba : Bool) (lu lr la : List String),
      AgentManager.find_existing_agent o.fe_acls o.fe_roles o.fe_users an =
        some ⟨some a, some r, some u⟩ →
      o.del_user = .ok bu → o.del_role = .ok br → o.del_acl = .ok ba →
      o.wait_user 0 = .ok lu → lu.any (fun n => n == u.name) = false →
      o.wait_role 0 = .ok lr → lr.any (fun n => n == r.name) = false →
      o.wait_acl 0 = .ok la → la.any (fun n => n == a.name) = false →
      o.mk_acl 0 = .ok a2 → o.mk_role 0 = .ok r2 → o.mk_user 0 = .ok u2 →
        AgentManager.create_new_agent C o an filt sk true false false =
          (.ret true, [Event.qAclsE, .qRolesE, .qUsersE] ++
            (AgentManager.cleanup_database_permissions C o.cl_put r.uid a.uid an filt
              o.cl_getFails o.cl_dbs).evs ++
            [.deleteUserE u.uid, .qUsersE, .deleteRoleE r.uid, .qRolesE,
             .deleteAclE a.uid, .qAclsE, .createAclE, .createRoleE, .createUserE] ++
            (AgentManager.update_database_permissions C o.up_put r2.uid a2.uid an filt sk
              o.up_getFails o.up_dbs).evs)) ∧
    (∀ (C : String → Option (String → Bool)) (o : CreateOracle) (an : String)
        (filt : Option String) (sk sa su : Bool) (ex : Found),
      AgentManager.find_existing_agent o.fe_acls o.fe_roles o.fe_users an = some ex →
      missingOf ex ≠ [] →
        ((AgentManager.create_new_agent C o an filt sk true sa su).2).all
          (fun e => !e.isDelete) = true) ∧
    (∀ (C : String → Option (String → Bool)) (o : CreateOracle) (an : String)
        (filt : Option String) (sk : Bool) (r : Resource) (u : UserRes) (a : Resource),
      AgentManager.find_existing_agent o.fe_acls o.fe_roles o.fe_users an =
        some ⟨none, some r, some u⟩ →
      o.mk_acl 0 = .ok a →
        AgentManager.create_new_agent C o an filt sk true false false =
          (.ret true, [Event.qAclsE, .qRolesE, .qUsersE, .createAclE] ++
            (AgentManager.update_database_permissions C o.up_put r.uid a.uid an filt sk
              o.up_getFails o.up_dbs).evs)) := by
  refine ⟨?_, ?_, ?_, ?_⟩
  · intro lists qEv name lu h h2
    simp [AgentManager.wait_for_component_deletion, waitGo, range10, h, h2]
  · intro C o an filt sk a r u a2 r2 u2 bu br ba lu lr la hfind hdu hdr hda
      hwu hwu2 hwr hwr2 hwa hwa2 hacl hrole huser
    simp [AgentManager.create_new_agent, hfind, missingOf, forceDeleteUser,
      forceDeleteRole, forceDeleteAcl, hdu, hdr, hda,
      AgentManager.wait_for_component_deletion, waitGo, range10, hwu, hwu2, hwr, hwr2,
      hwa, hwa2, createAclPhase, createRolePhase, createUserPhase, createUpdatePhase,
      AgentManager.create_with_retry, createRetryGo, range5, hacl, hrole, huser]
  · intro C o an filt sk sa su ex hfind hmiss
    simp only [AgentManager.create_new_agent, hfind]
    rw [if_neg hmiss]
    simp only [if_true]
    exact createAclPhase_noDelete C o an filt sk sa su (some ex) _ rfl
  · intro C o an filt sk r u a hfind hacl
    simp [AgentManager.create_new_agent, hfind, missingOf, createAclPhase,
      createRolePhase, createUserPhase, createUpdatePhase,
      AgentManager.create_with_retry, createRetryGo, range5, hacl]

/-- Witness for C3 at the concrete COMPLETE oracle and at an
always-present poll target. -/
theorem create_force_complete_teardown_witness :
    AgentManager.create_new_agent compileAny completeForceOracle "x" none false true
      false false =
      (.ret true, [Event.qAclsE, .qRolesE, .qUsersE] ++
        (AgentManager.cleanup_database_permissions compileAny completeForceOracle.cl_put
          7 4 "x" none completeForceOracle.cl_getFails completeForceOracle.cl_dbs).evs ++
        [.deleteUserE 9, .qUsersE, .deleteRoleE 7, .qRolesE,
         .deleteAclE 4, .qAclsE, .createAclE, .createRoleE, .createUserE] ++
        (AgentManager.update_database_permissions compileAny completeForceOracle.up_put
          17 3 "x" none false completeForceOracle.up_getFails
          completeForceOracle.up_dbs).evs) ∧
    AgentManager.wait_for_component_deletion (fun _ => .ok ["x"]) .qUsersE "x" 10 2 =
      (false, [.qUsersE, .sleepE 2, .qUsersE, .sleepE 2, .qUsersE, .sleepE 2,
        .qUsersE, .sleepE 2, .qUsersE, .sleepE 2, .qUsersE, .sleepE 2,
        .qUsersE, .sleepE 2, .qUsersE, .sleepE 2, .qUsersE, .sleepE 2, .qUsersE]) :=
  ⟨create_force_complete_teardown.2.1 compileAny completeForceOracle "x" none false
     ⟨"x-acl", 4⟩ ⟨"x-role", 7⟩ ⟨"x", "x@example.com", 9⟩
     ⟨"x-acl", 3⟩ ⟨"x-role", 17⟩ ⟨"x", "x@example.com", 19⟩ true true true [] [] []
     (by decide) rfl rfl rfl rfl rfl rfl rfl rfl rfl rfl rfl rfl,
   create_force_complete_teardown.1 (fun _ => .ok ["x"]) .qUsersE "x" ["x"]
     (fun _ => rfl) (by decide)⟩

/-- C5 counterexample: repair on an agent missing only its ACL, with
every creation attempt conflicting, ends with the component skipped:
the run returns success, issues no adoption re-query and no
permission reconciliation (no qDbsE, no PUT), although the remote has
a database and a resolved role; the create retry policy at the very
same conflicting creator would have adopted the ACL under uid 42. -/
theorem repair_no_adoption_counterexample :
    AgentManager.repair_missing_components compileAny repairConflictOracle "x" none
      false false =
      (.ret true, [.qAclsE, .qRolesE, .qUsersE, .createAclE, .sleepE 3, .createAclE,
        .sleepE 3, .createAclE, .sleepE 3, .createAclE, .sleepE 3, .createAclE]) ∧
    (AgentManager.create_with_retry Resource.name repairConflictOracle.mk_acl
      (.ok [⟨"x-acl", 42⟩]) "x-acl" 5 .createAclE .qAclsE).1 =
      .adopted ⟨"x-acl", 42⟩ := by
  decide

/-- C5 (amended): repair fails when nothing is found; otherwise it
creates exactly the missing components (the user only when user
creation is not skipped), retrying each creation on conflict up to 5
attempts with 3-second spacing but skipping the component on
exhaustion, leaving it unresolved, instead of adopting a uid or
failing; it reuses the uids of already-present resources, never
deletes anything, and reconciles database permissions only when both
ACL and role end up resolved and database updates are not skipped. -/
theorem repair_missing_subset :
    (∀ (C : String → Option (String → Bool)) (o : RepairOracle) (an : String)
        (filt : Option String) (sa su : Bool),
      AgentManager.find_existing_agent o.fe_acls o.fe_roles o.fe_users an = none →
        AgentManager.repair_missing_components C o an filt sa su =
          (.ret false, [.qAclsE, .qRolesE, .qUsersE])) ∧
    (∀ (C : String → Option (String → Bool)) (o : RepairOracle) (an : String)
        (filt : Option String) (su : Bool) (a r : Resource) (u : UserRes),
      AgentManager.find_existing_agent o.fe_acls o.fe_roles o.fe_users an =
        some ⟨none, some r, some u⟩ →
      o.mk_acl 0 = .ok a →
        AgentManager.repair_missing_components C o an filt false su =
          (.ret true, [Event.qAclsE, .qRolesE, .qUsersE, .createAclE] ++
            (AgentManager.update_database_permissions C o.up_put r.uid a.uid an filt
              false o.up_getFails o.up_dbs).evs)) ∧
    (∀ (C : String → Option (String → Bool)) (o : RepairOracle) (an : String)
        (filt : Option String) (su : Bool) (r : Resource) (u : UserRes),
      AgentManager.find_existing_agent o.fe_acls o.fe_roles o.fe_users an =
        some ⟨none, some r, some u⟩ →
      (∀ i, o.mk_acl i = .error .conflict) →
        AgentManager.repair_missing_components C o an filt false su =
          (.ret true, [.qAclsE, .qRolesE, .qUsersE, .createAclE, .sleepE 3,
            .createAclE, .sleepE 3, .createAclE, .sleepE 3, .createAclE, .sleepE 3,
            .createAclE])) ∧
    (∀ (C : String → Option (String → Bool)) (o : RepairOracle) (an : String)
        (filt : Option String) (a r : Resource),
      AgentManager.find_existing_agent o.fe_acls o.fe_roles o.fe_users an =
        some ⟨some a, some r, none⟩ →
        AgentManager.repair_missing_components C o an filt true true =
          (.ret true, [.qAclsE, .qRolesE, .qUsersE])) ∧
    (∀ (C : String → Option (String → Bool)) (o : RepairOracle) (an : String)
        (filt : Option String) (sa su : Bool),
      ((AgentManager.repair_missing_components C o an filt sa su).2).all
        (fun e => !e.isDelete) = true) := by
  refine ⟨?_, ?_, ?_, ?_, ?_⟩
  · intro C o an filt sa su hfind
    simp [AgentManager.repair_missing_components, hfind]
  · intro C o an filt su a r u hfind hacl
    simp [AgentManager.repair_missing_components, hfind, missingOf, repairAclPhase,
      repairRolePhase, repairUserPhase, repairFinish, AgentManager.repair_retry,
      repairRetryGo, range5, hacl]
  · intro C o an filt su r u hfind hconf
    simp [AgentManager.repair_missing_components, hfind, missingOf, repairAclPhase,
      repairRolePhase, repairUserPhase, repairFinish, AgentManager.repair_retry,
      repairRetryGo, range5, hconf]
  · intro C o an filt a r hfind
    simp [AgentManager.repair_missing_components, hfind, missingOf, repairAclPhase,
      repairRolePhase, repairUserPhase, repairFinish]
  · intro C o an filt sa su
    exact repair_noDelete C o an filt sa su

/-- Witness for C5 at the concrete repair oracles. -/
theorem repair_missing_subset_witness :
    AgentManager.repair_missing_components compileAny repairAbsentOracle "x" none
      false false = (.ret false, [.qAclsE, .qRolesE, .qUsersE]) ∧
    AgentManager.repair_missing_components compileAny repairHappyOracle "x" none
      false false =
      (.ret true, [Event.qAclsE, .qRolesE, .qUsersE, .createAclE] ++
        (AgentManager.update_database_permissions compileAny repairHappyOracle.up_put
          7 3 "x" none false repairHappyOracle.up_getFails
          repairHappyOracle.up_dbs).evs) ∧
    AgentManager.repair_missing_components compileAny repairUserMissingOracle "x" none
      true true = (.ret true, [.qAclsE, .qRolesE, .qUsersE]) ∧
    ((AgentManager.repair_missing_components compileAny repairConflictOracle "x" none
      false false).2).all (fun e => !e.isDelete) = true :=
  ⟨repair_missing_subset.1 compileAny repairAbsentOracle "x" none false false
     (by decide),
   repair_missing_subset.2.1 compileAny repairHappyOracle "x" none false
     ⟨"x-acl", 3⟩ ⟨"x-role", 7⟩ ⟨"x", "x@example.com", 9⟩ (by decide) rfl,
   repair_missing_subset.2.2.2.1 compileAny repairUserMissingOracle "x" none
     ⟨"x-acl", 4⟩ ⟨"x-role", 7⟩ (by decide),
   repair_missing_subset.2.2.2.2 compileAny repairConflictOracle "x" none false false⟩

/-- C6: update_existing_agent never creates or deletes any ACL, role
or user in any execution: every event of its trace is a query, sleep
or permission PUT; and it returns false when the ACL named
agent-acl, or the role named agent-role, is not in the remote
listing. -/
theorem update_never_creates_or_deletes :
    (∀ (C : String → Option (String → Bool)) (o : UpdateOracle) (an : String)
        (filt : Option String) (sk : Bool),
      ((AgentManager.update_existing_agent C o an filt sk).2).all
        (fun e => !e.isCreate && !e.isDelete) = true) ∧
    (∀ (C : String → Option (String → Bool)) (o : UpdateOracle) (an : String)
        (filt : Option String) (sk : Bool) (la : List Resource),
      o.gacls = .ok la →
      la.find? (fun a => a.name == an ++ "-acl") = none →
        (AgentManager.update_existing_agent C o an filt sk).1 = false) ∧
    (∀ (C : String → Option (String → Bool)) (o : UpdateOracle) (an : String)
        (filt : Option String) (sk : Bool) (la lr : List Resource) (acl : Resource),
      o.gacls = .ok la →
      la.find? (fun a => a.name == an ++ "-acl") = some acl →
      o.groles = .ok lr →
      lr.find? (fun r => r.name == an ++ "-role") = none →
        (AgentManager.update_existing_agent C o an filt sk).1 = false) := by
  refine ⟨?_, ?_, ?_⟩
  · intro C o an filt sk
    cases hga : o.gacls with
    | error e => simp [AgentManager.update_existing_agent, hga, Event.isCreate, Event.isDelete]
    | ok acls =>
      cases hgr : o.groles with
      | error e =>
        simp [AgentManager.update_existing_agent, hga, hgr, Event.isCreate, Event.isDelete]
      | ok roles =>
        cases hfa : acls.find? (fun a => a.name == an ++ "-acl") with
        | none =>
          simp [AgentManager.update_existing_agent, hga, hgr, hfa, Event.isCreate,
            Event.isDelete]
        | some acl =>
          cases hfr : roles.find? (fun r => r.name == an ++ "-role") with
          | none =>
            simp [AgentManager.update_existing_agent, hga, hgr, hfa, hfr, Event.isCreate,
              Event.isDelete]
          | some role =>
            simp only [AgentManager.update_existing_agent, hga, hgr, hfa, hfr,
              List.cons_append, List.nil_append, List.all_cons, Event.isCreate,
              Event.isDelete, Bool.not_false, Bool.and_self, Bool.true_and]
            exact update_evs_all _ rfl (fun _ _ => rfl) C o.up_put role.uid acl.uid an
              filt sk o.up_getFails o.up_dbs
  · intro C o an filt sk la hga hfa
    cases hgr : o.groles with
    | error e => simp [AgentManager.update_existing_agent, hga, hgr]
    | ok roles => simp [AgentManager.update_existing_agent, hga, hgr, hfa]
  · intro C o an filt sk la lr acl hga hfa hgr hfr
    simp [AgentManager.update_existing_agent, hga, hgr, hfa, hfr]

/-- Witness for C6 at the concrete update oracles. -/
theorem update_never_creates_or_deletes_witness :
    ((AgentManager.update_existing_agent compileAny updPresentOracle "x" none false).2).all
      (fun e => !e.isCreate && !e.isDelete) = true ∧
    (AgentManager.update_existing_agent compileAny updMissingOracle "x" none false).1 =
      false :=
  ⟨update_never_creates_or_deletes.1 compileAny updPresentOracle "x" none false,
   update_never_creates_or_deletes.2.1 compileAny updMissingOracle "x" none false []
     rfl rfl⟩

/-- C10 counterexample: a reconciliation run in which every
per-database permission PUT fails still returns true (with success
counter 0 of 1), so an all-PUTs-fail run is not an example of
reconciliation returning false. -/
theorem reconcile_all_puts_fail_counterexample :
    AgentManager.update_database_permissions compileAny putFalse 1 2 "x" none false
      false [sampleDb1] =
      ⟨[sampleDb1], 0, 1, true, [.qDbsE, .putPermsE 1 [⟨some 1, some 2⟩]]⟩ := by
  decide

/-- C10 (amended): create_new_agent with skip_all_databases false and
repair_missing_components discard the boolean returned by
update_database_permissions: executions reaching the reconciliation
step return overall success whatever the reconciliation outcome, for
example even when the remote database list is empty, a case in which
reconciliation itself returns false. -/
theorem create_repair_discard_reconcile_result :
    (∀ (C : String → Option (String → Bool)) (o : CreateOracle) (an : String)
        (filt : Option String) (sk fc : Bool) (a r : Resource) (u : UserRes),
      AgentManager.find_existing_agent o.fe_acls o.fe_roles o.fe_users an = none →
      o.mk_acl 0 = .ok a → o.mk_role 0 = .ok r → o.mk_user 0 = .ok u →
        (AgentManager.create_new_agent C o an filt sk fc false false).1 = .ret true) ∧
    (∀ (C : String → Option (String → Bool)) (o : RepairOracle) (an : String)
        (filt : Option String) (a r : Resource) (u : UserRes),
      AgentManager.find_existing_agent o.fe_acls o.fe_roles o.fe_users an =
        some ⟨some a, some r, none⟩ →
      o.mk_user 0 = .ok u →
        (AgentManager.repair_missing_components C o an filt false false).1 =
          .ret true) ∧
    (∀ (C : String → Option (String → Bool)) (put : Nat → List Perm → Bool)
        (role_uid acl_uid : Nat) (an : String) (filt : Option String) (sk : Bool),
      AgentManager.update_database_permissions C put role_uid acl_uid an filt sk
        false [] = ⟨[], 0, 0, false, [.qDbsE]⟩) := by
  refine ⟨?_, ?_, ?_⟩
  · intro C o an filt sk fc a r u hfind hacl hrole huser
    simp [AgentManager.create_new_agent, hfind, createAclPhase, createRolePhase,
      createUserPhase, createUpdatePhase, AgentManager.create_with_retry, createRetryGo,
      range5, hacl, hrole, huser]
  · intro C o an filt a r u hfind huser
    simp [AgentManager.repair_missing_components, hfind, missingOf, repairAclPhase,
      repairRolePhase, repairUserPhase, repairFinish, AgentManager.repair_retry,
      repairRetryGo, range5, huser]
  · intro C put role_uid acl_uid an filt sk
    cases filt <;> simp [AgentManager.update_database_permissions]

/-- Witness for C10: the concrete absent-agent create run and the
user-missing repair run both face an empty remote database list, so
their reconciliation steps return false, yet both runs succeed. -/
theorem create_repair_discard_reconcile_result_witness :
    (AgentManager.create_new_agent compileAny absentCreateOracle "x" none false false
      false false).1 = .ret true ∧
    (AgentManager.repair_missing_components compileAny repairUserMissingOracle "x"
      none false false).1 = .ret true ∧
    AgentManager.update_database_permissions compileAny putTrue 17 3 "x" none false
      false [] = ⟨[], 0, 0, false, [.qDbsE]⟩ :=
  ⟨create_repair_discard_reconcile_result.1 compileAny absentCreateOracle "x" none
     false false ⟨"x-acl", 3⟩ ⟨"x-role", 17⟩ ⟨"x", "x@example.com", 19⟩
     (by decide) rfl rfl rfl,
   create_repair_discard_reconcile_result.2.1 compileAny repairUserMissingOracle "x"
     none ⟨"x-acl", 4⟩ ⟨"x-role", 7⟩ ⟨"x", "x@example.com", 19⟩ (by decide) rfl,
   create_repair_discard_reconcile_result.2.2 compileAny putTrue 17 3 "x" none false⟩

end Radar
